/- Verification of the Open3d computational-geometry kernel (TypeScript).
   The definitions below are a shallow embedding of the library's classes
   Vector3d, Point3d, Transform, Line, Plane, Intersection, BoundingBox and
   Polyline over the real numbers.  JS `number` is modelled as `ℝ`; methods
   that throw are modelled with `Except String`; methods returning `null`
   are modelled with `Option`.  Division by an exactly-zero real is Lean's
   junk value 0; every place where this diverges from a source-level throw
   is guarded or commented. -/
import Mathlib

set_option maxHeartbeats 1600000

noncomputable section

open scoped Classical

namespace Open3d

/-- `Open3d.EPSILON = 1e-6`, the default linear tolerance (src/src/Open3d.ts). -/
def EPSILON : ℝ := 1e-6

/-- `Open3d.ANGLE_EPSILON = 0.001`, the default angular tolerance (src/src/Open3d.ts). -/
def ANGLE_EPSILON : ℝ := 1e-3

/-- `Open3dMath.EpsilonEquals(a, b, epsilon)`: `Math.abs(a - b) < epsilon`
    (src/src/Open3dMath.ts). -/
def Open3dMath.EpsilonEquals (a b epsilon : ℝ) : Prop := |a - b| < epsilon

/-- `Open3dMath.Clamp(value, min, max)` with the min/max swap when `min > max`
    (src/src/Open3dMath.ts). -/
def Open3dMath.Clamp (value mn mx : ℝ) : ℝ :=
  if mn > mx then min (max value mx) mn else min (max value mn) mx

/-- The `Vector3d` class: three real components (part_009). -/
structure Vector3d where
  X : ℝ
  Y : ℝ
  Z : ℝ

/-- The `Point3d` class: three real coordinates (part_018). -/
structure Point3d where
  X : ℝ
  Y : ℝ
  Z : ℝ

/-- `Vector3d.Zero`. -/
def Vector3d.Zero : Vector3d := ⟨0, 0, 0⟩

/-- `Point3d.Origin`. -/
def Point3d.Origin : Point3d := ⟨0, 0, 0⟩

/-- `Vector3d.Add`. -/
def Vector3d.Add (a b : Vector3d) : Vector3d := ⟨a.X + b.X, a.Y + b.Y, a.Z + b.Z⟩

/-- `Vector3d.Subtract`. -/
def Vector3d.Subtract (a b : Vector3d) : Vector3d := ⟨a.X - b.X, a.Y - b.Y, a.Z - b.Z⟩

/-- `Vector3d.Multiply(vector, t)`: componentwise scaling. -/
def Vector3d.Multiply (v : Vector3d) (t : ℝ) : Vector3d := ⟨v.X * t, v.Y * t, v.Z * t⟩

/-- `Vector3d.DotProduct`. -/
def Vector3d.DotProduct (a b : Vector3d) : ℝ := a.X * b.X + a.Y * b.Y + a.Z * b.Z

/-- `Vector3d.CrossProduct`. -/
def Vector3d.CrossProduct (a b : Vector3d) : Vector3d :=
  ⟨a.Y * b.Z - b.Y * a.Z, a.Z * b.X - b.Z * a.X, a.X * b.Y - b.X * a.Y⟩

/-- `Vector3d.Length`: `Math.hypot(x, y, z)`. -/
def Vector3d.Length (v : Vector3d) : ℝ := Real.sqrt (v.X ^ 2 + v.Y ^ 2 + v.Z ^ 2)

/-- `Vector3d.Unitize`.  The source throws when `Length === 0` exactly; here a
    zero-length vector maps to the junk value `⟨0,0,0⟩` (division by zero), and
    every call site that can reach a zero length is guarded by a hypothesis. -/
def Vector3d.Unitize (v : Vector3d) : Vector3d :=
  ⟨v.X / v.Length, v.Y / v.Length, v.Z / v.Length⟩

/-- `Vector3d.Reverse`. -/
def Vector3d.Reverse (v : Vector3d) : Vector3d := ⟨-v.X, -v.Y, -v.Z⟩

/-- `Vector3d.Distance(a, b) = b.Subtract(a).Length`. -/
def Vector3d.Distance (a b : Vector3d) : ℝ := (b.Subtract a).Length

/-- `Vector3d.DistanceTo`. -/
def Vector3d.DistanceTo (a b : Vector3d) : ℝ := Vector3d.Distance a b

/-- `Vector3d.Equals`: componentwise epsilon equality with the global EPSILON. -/
def Vector3d.Equals (a b : Vector3d) : Prop :=
  Open3dMath.EpsilonEquals a.X b.X EPSILON ∧ Open3dMath.EpsilonEquals a.Y b.Y EPSILON ∧
    Open3dMath.EpsilonEquals a.Z b.Z EPSILON

/-- `Vector3d.IsZero`: all components epsilon-equal to 0. -/
def Vector3d.IsZero (v : Vector3d) : Prop :=
  Open3dMath.EpsilonEquals v.X 0 EPSILON ∧ Open3dMath.EpsilonEquals v.Y 0 EPSILON ∧
    Open3dMath.EpsilonEquals v.Z 0 EPSILON

/-- `Vector3d.AddToPoint(vector, point)`. -/
def Vector3d.AddToPoint (v : Vector3d) (p : Point3d) : Point3d :=
  ⟨v.X + p.X, v.Y + p.Y, v.Z + p.Z⟩

/-- `Vector3d.CreateFromPoint3d`. -/
def Vector3d.CreateFromPoint3d (p : Point3d) : Vector3d := ⟨p.X, p.Y, p.Z⟩

/-- `Vector3d.GetPerpendicularVector`: the explicit six-way magnitude ordering
    from part_009 (indices `i, j, k` with `arr[i] = b`, `arr[j] = a`,
    `arr[k] = 0`), followed by `Unitize`. -/
def Vector3d.GetPerpendicularVector (v : Vector3d) : Vector3d :=
  let w : Vector3d :=
    if |v.Y| > |v.X| then
      if |v.Z| > |v.Y| then ⟨0, v.Z, -v.Y⟩
      else if |v.Z| ≥ |v.X| then ⟨0, -v.Z, v.Y⟩
      else ⟨v.Y, -v.X, 0⟩
    else if |v.Z| > |v.X| then ⟨v.Z, 0, -v.X⟩
    else if |v.Z| > |v.Y| then ⟨-v.Z, 0, v.X⟩
    else ⟨-v.Y, v.X, 0⟩
  w.Unitize

/-- `Point3d.Add(point, vector)`. -/
def Point3d.Add (p : Point3d) (v : Vector3d) : Point3d := ⟨p.X + v.X, p.Y + v.Y, p.Z + v.Z⟩

/-- `Point3d.AddPoint(point1, point2)`. -/
def Point3d.AddPoint (a b : Point3d) : Point3d := ⟨a.X + b.X, a.Y + b.Y, a.Z + b.Z⟩

/-- `Point3d.SubtractPoint(point1, point2)`: yields a `Vector3d`. -/
def Point3d.SubtractPoint (a b : Point3d) : Vector3d := ⟨a.X - b.X, a.Y - b.Y, a.Z - b.Z⟩

/-- `Point3d.Multiply(point, t)`. -/
def Point3d.Multiply (p : Point3d) (t : ℝ) : Point3d := ⟨p.X * t, p.Y * t, p.Z * t⟩

/-- `Point3d.Distance(a, b) = Math.hypot(a.X - b.X, a.Y - b.Y, a.Z - b.Z)`. -/
def Point3d.Distance (a b : Point3d) : ℝ :=
  Real.sqrt ((a.X - b.X) ^ 2 + (a.Y - b.Y) ^ 2 + (a.Z - b.Z) ^ 2)

/-- `Point3d.DistanceTo`. -/
def Point3d.DistanceTo (a b : Point3d) : ℝ := Point3d.Distance a b

/-- `Point3d.Equals`: componentwise epsilon equality with the global EPSILON. -/
def Point3d.Equals (a b : Point3d) : Prop :=
  Open3dMath.EpsilonEquals a.X b.X EPSILON ∧ Open3dMath.EpsilonEquals a.Y b.Y EPSILON ∧
    Open3dMath.EpsilonEquals a.Z b.Z EPSILON

/-- The `Transform` class: 16 numbers in the array order
    `[m0, m1, ..., m15]` of `this.m` (src/src/Transform.ts). -/
structure Transform where
  m0 : ℝ
  m1 : ℝ
  m2 : ℝ
  m3 : ℝ
  m4 : ℝ
  m5 : ℝ
  m6 : ℝ
  m7 : ℝ
  m8 : ℝ
  m9 : ℝ
  m10 : ℝ
  m11 : ℝ
  m12 : ℝ
  m13 : ℝ
  m14 : ℝ
  m15 : ℝ

/-- `Transform.Identity`. -/
def Transform.Identity : Transform := ⟨1, 0, 0, 0, 0, 1, 0, 0, 0, 0, 1, 0, 0, 0, 0, 1⟩

/-- `Transform.ZeroTransformation`: diagonal `(0,0,0,1)`. -/
def Transform.ZeroTransformation : Transform := ⟨0, 0, 0, 0, 0, 0, 0, 0, 0, 0, 0, 0, 0, 0, 0, 1⟩

/-- `Transform.Translation(v)`: `[1,0,0,v.X, 0,1,0,v.Y, 0,0,1,v.Z, 0,0,0,1]`. -/
def Transform.Translation (v : Vector3d) : Transform :=
  ⟨1, 0, 0, v.X, 0, 1, 0, v.Y, 0, 0, 1, v.Z, 0, 0, 0, 1⟩

/-- `Transform.Equals(other)`: all 16 entries epsilon-equal with the global
    EPSILON (src/src/Transform.ts, lines 581-590). -/
def Transform.Equals (a b : Transform) : Prop :=
  Open3dMath.EpsilonEquals a.m0 b.m0 EPSILON ∧ Open3dMath.EpsilonEquals a.m1 b.m1 EPSILON ∧
  Open3dMath.EpsilonEquals a.m2 b.m2 EPSILON ∧ Open3dMath.EpsilonEquals a.m3 b.m3 EPSILON ∧
  Open3dMath.EpsilonEquals a.m4 b.m4 EPSILON ∧ Open3dMath.EpsilonEquals a.m5 b.m5 EPSILON ∧
  Open3dMath.EpsilonEquals a.m6 b.m6 EPSILON ∧ Open3dMath.EpsilonEquals a.m7 b.m7 EPSILON ∧
  Open3dMath.EpsilonEquals a.m8 b.m8 EPSILON ∧ Open3dMath.EpsilonEquals a.m9 b.m9 EPSILON ∧
  Open3dMath.EpsilonEquals a.m10 b.m10 EPSILON ∧ Open3dMath.EpsilonEquals a.m11 b.m11 EPSILON ∧
  Open3dMath.EpsilonEquals a.m12 b.m12 EPSILON ∧ Open3dMath.EpsilonEquals a.m13 b.m13 EPSILON ∧
  Open3dMath.EpsilonEquals a.m14 b.m14 EPSILON ∧ Open3dMath.EpsilonEquals a.m15 b.m15 EPSILON

/-- `Transform.MultiplyMatrix(a, b)` (src/src/Transform.ts, lines 612-640).
    The source destructures both arrays row-major:
    `[a11, a12, a13, a14, a21, ..., a44] = ae`, so `a11 = m0, a12 = m1, ...`. -/
def Transform.MultiplyMatrix (a b : Transform) : Transform :=
  ⟨a.m0 * b.m0 + a.m1 * b.m4 + a.m2 * b.m8 + a.m3 * b.m12,
   a.m0 * b.m1 + a.m1 * b.m5 + a.m2 * b.m9 + a.m3 * b.m13,
   a.m0 * b.m2 + a.m1 * b.m6 + a.m2 * b.m10 + a.m3 * b.m14,
   a.m0 * b.m3 + a.m1 * b.m7 + a.m2 * b.m11 + a.m3 * b.m15,
   a.m4 * b.m0 + a.m5 * b.m4 + a.m6 * b.m8 + a.m7 * b.m12,
   a.m4 * b.m1 + a.m5 * b.m5 + a.m6 * b.m9 + a.m7 * b.m13,
   a.m4 * b.m2 + a.m5 * b.m6 + a.m6 * b.m10 + a.m7 * b.m14,
   a.m4 * b.m3 + a.m5 * b.m7 + a.m6 * b.m11 + a.m7 * b.m15,
   a.m8 * b.m0 + a.m9 * b.m4 + a.m10 * b.m8 + a.m11 * b.m12,
   a.m8 * b.m1 + a.m9 * b.m5 + a.m10 * b.m9 + a.m11 * b.m13,
   a.m8 * b.m2 + a.m9 * b.m6 + a.m10 * b.m10 + a.m11 * b.m14,
   a.m8 * b.m3 + a.m9 * b.m7 + a.m10 * b.m11 + a.m11 * b.m15,
   a.m12 * b.m0 + a.m13 * b.m4 + a.m14 * b.m8 + a.m15 * b.m12,
   a.m12 * b.m1 + a.m13 * b.m5 + a.m14 * b.m9 + a.m15 * b.m13,
   a.m12 * b.m2 + a.m13 * b.m6 + a.m14 * b.m10 + a.m15 * b.m14,
   a.m12 * b.m3 + a.m13 * b.m7 + a.m14 * b.m11 + a.m15 * b.m15⟩

/-- `Vector3d.Transform(transformation)` (part_009, lines 523-534): the copy of
    the matrix has `m[3] = m[7] = m[11] = 0` assigned before the affine
    products, so only the linear 3x3 part acts on a vector. -/
def Vector3d.TransformBy (v : Vector3d) (transformation : Transform) : Vector3d :=
  let z3 : ℝ := 0
  let z7 : ℝ := 0
  let z11 : ℝ := 0
  ⟨transformation.m0 * v.X + transformation.m1 * v.Y + transformation.m2 * v.Z + z3,
   transformation.m4 * v.X + transformation.m5 * v.Y + transformation.m6 * v.Z + z7,
   transformation.m8 * v.X + transformation.m9 * v.Y + transformation.m10 * v.Z + z11⟩

/-- `Point3d.Transform(transformation)` (part_018, lines 236-244): the full
    affine map including the translation entries `m[3], m[7], m[11]`. -/
def Point3d.TransformBy (p : Point3d) (transformation : Transform) : Point3d :=
  ⟨transformation.m0 * p.X + transformation.m1 * p.Y + transformation.m2 * p.Z + transformation.m3,
   transformation.m4 * p.X + transformation.m5 * p.Y + transformation.m6 * p.Z + transformation.m7,
   transformation.m8 * p.X + transformation.m9 * p.Y + transformation.m10 * p.Z + transformation.m11⟩

/-- C1: `Vector3d.Transform` applies only the linear (upper-left 3x3) part of
    the matrix — its result has no contribution from the translation entries
    `m[3], m[7], m[11]`, and on `Transform.Translation(w)` every vector is a
    fixed point — while `Point3d.Transform` applies the full affine map, so a
    point transformed by `Transform.Translation(w)` is the point translated
    by `w`. -/
theorem c1_vector_linear_point_affine (T : Transform) (v : Vector3d) (p : Point3d)
    (w : Vector3d) :
    v.TransformBy T = ⟨T.m0 * v.X + T.m1 * v.Y + T.m2 * v.Z,
                       T.m4 * v.X + T.m5 * v.Y + T.m6 * v.Z,
                       T.m8 * v.X + T.m9 * v.Y + T.m10 * v.Z⟩ ∧
    p.TransformBy T = Point3d.Add
      ⟨T.m0 * p.X + T.m1 * p.Y + T.m2 * p.Z,
       T.m4 * p.X + T.m5 * p.Y + T.m6 * p.Z,
       T.m8 * p.X + T.m9 * p.Y + T.m10 * p.Z⟩ ⟨T.m3, T.m7, T.m11⟩ ∧
    v.TransformBy (Transform.Translation w) = v ∧
    p.TransformBy (Transform.Translation w) = p.Add w := by
  refine ⟨?_, ?_, ?_, ?_⟩
  · simp [Vector3d.TransformBy]
  · simp [Point3d.TransformBy, Point3d.Add]
  · simp [Vector3d.TransformBy, Transform.Translation]
  · simp [Point3d.TransformBy, Transform.Translation, Point3d.Add]

/-- `Transform.Determinant` (src/src/Transform.ts, lines 527-536).  The getter
    destructures `this.m` as `[n11, n21, n31, n41, n12, n22, n32, n42, n13,
    n23, n33, n43, n14, n24, n34, n44]`, i.e. `n11 = m0, n21 = m1, ...`. -/
def Transform.Determinant (x : Transform) : ℝ :=
  let n11 := x.m0
  let n21 := x.m1
  let n31 := x.m2
  let n41 := x.m3
  let n12 := x.m4
  let n22 := x.m5
  let n32 := x.m6
  let n42 := x.m7
  let n13 := x.m8
  let n23 := x.m9
  let n33 := x.m10
  let n43 := x.m11
  let n14 := x.m12
  let n24 := x.m13
  let n34 := x.m14
  let n44 := x.m15
  n41 * (n14 * n23 * n32 - n13 * n24 * n32 - n14 * n22 * n33 + n12 * n24 * n33 +
         n13 * n22 * n34 - n12 * n23 * n34) +
  n42 * (n11 * n23 * n34 - n11 * n24 * n33 + n14 * n21 * n33 - n13 * n21 * n34 +
         n13 * n24 * n31 - n14 * n23 * n31) +
  n43 * (n11 * n24 * n32 - n11 * n22 * n34 - n14 * n21 * n32 + n12 * n21 * n34 +
         n14 * n22 * n31 - n12 * n24 * n31) +
  n44 * (-n13 * n22 * n31 - n11 * n23 * n32 + n11 * n22 * n33 + n13 * n21 * n32 -
         n12 * n21 * n33 + n12 * n23 * n31)

/-- The internal cofactor determinant `det = n11*t11 + n21*t12 + n31*t13 + n41*t14`
    computed inside `Transform.TryGetInverse` (src/src/Transform.ts, lines
    1025-1030), with the same column-major destructuring of `this.m`. -/
def Transform.tgiDet (x : Transform) : ℝ :=
  let n11 := x.m0
  let n21 := x.m1
  let n31 := x.m2
  let n41 := x.m3
  let n12 := x.m4
  let n22 := x.m5
  let n32 := x.m6
  let n42 := x.m7
  let n13 := x.m8
  let n23 := x.m9
  let n33 := x.m10
  let n43 := x.m11
  let n14 := x.m12
  let n24 := x.m13
  let n34 := x.m14
  let n44 := x.m15
  let t11 := n23 * n34 * n42 - n24 * n33 * n42 + n24 * n32 * n43 - n22 * n34 * n43 -
             n23 * n32 * n44 + n22 * n33 * n44
  let t12 := n14 * n33 * n42 - n13 * n34 * n42 - n14 * n32 * n43 + n12 * n34 * n43 +
             n13 * n32 * n44 - n12 * n33 * n44
  let t13 := n13 * n24 * n42 - n14 * n23 * n42 + n14 * n22 * n43 - n12 * n24 * n43 -
             n13 * n22 * n44 + n12 * n23 * n44
  let t14 := n14 * n23 * n32 - n13 * n24 * n32 - n14 * n22 * n33 + n12 * n24 * n33 +
             n13 * n22 * n34 - n12 * n23 * n34
  n11 * t11 + n21 * t12 + n31 * t13 + n41 * t14

/-- The 16 entries `te[0..15]` written by `Transform.TryGetInverse`
    (src/src/Transform.ts, lines 1036-1054), in the stored array order. -/
def Transform.InverseMatrix (x : Transform) : Transform :=
  let n11 := x.m0
  let n21 := x.m1
  let n31 := x.m2
  let n41 := x.m3
  let n12 := x.m4
  let n22 := x.m5
  let n32 := x.m6
  let n42 := x.m7
  let n13 := x.m8
  let n23 := x.m9
  let n33 := x.m10
  let n43 := x.m11
  let n14 := x.m12
  let n24 := x.m13
  let n34 := x.m14
  let n44 := x.m15
  let t11 := n23 * n34 * n42 - n24 * n33 * n42 + n24 * n32 * n43 - n22 * n34 * n43 -
             n23 * n32 * n44 + n22 * n33 * n44
  let t12 := n14 * n33 * n42 - n13 * n34 * n42 - n14 * n32 * n43 + n12 * n34 * n43 +
             n13 * n32 * n44 - n12 * n33 * n44
  let t13 := n13 * n24 * n42 - n14 * n23 * n42 + n14 * n22 * n43 - n12 * n24 * n43 -
             n13 * n22 * n44 + n12 * n23 * n44
  let t14 := n14 * n23 * n32 - n13 * n24 * n32 - n14 * n22 * n33 + n12 * n24 * n33 +
             n13 * n22 * n34 - n12 * n23 * n34
  let det := n11 * t11 + n21 * t12 + n31 * t13 + n41 * t14
  let detInv := 1 / det
  ⟨t11 * detInv,
   (n24 * n33 * n41 - n23 * n34 * n41 - n24 * n31 * n43 + n21 * n34 * n43 +
    n23 * n31 * n44 - n21 * n33 * n44) * detInv,
   (n22 * n34 * n41 - n24 * n32 * n41 + n24 * n31 * n42 - n21 * n34 * n42 -
    n22 * n31 * n44 + n21 * n32 * n44) * detInv,
   (n23 * n32 * n41 - n22 * n33 * n41 - n23 * n31 * n42 + n21 * n33 * n42 +
    n22 * n31 * n43 - n21 * n32 * n43) * detInv,
   t12 * detInv,
   (n13 * n34 * n41 - n14 * n33 * n41 + n14 * n31 * n43 - n11 * n34 * n43 -
    n13 * n31 * n44 + n11 * n33 * n44) * detInv,
   (n14 * n32 * n41 - n12 * n34 * n41 - n14 * n31 * n42 + n11 * n34 * n42 +
    n12 * n31 * n44 - n11 * n32 * n44) * detInv,
   (n12 * n33 * n41 - n13 * n32 * n41 + n13 * n31 * n42 - n11 * n33 * n42 -
    n12 * n31 * n43 + n11 * n32 * n43) * detInv,
   t13 * detInv,
   (n14 * n23 * n41 - n13 * n24 * n41 - n14 * n21 * n43 + n11 * n24 * n43 +
    n13 * n21 * n44 - n11 * n23 * n44) * detInv,
   (n12 * n24 * n41 - n14 * n22 * n41 + n14 * n21 * n42 - n11 * n24 * n42 -
    n12 * n21 * n44 + n11 * n22 * n44) * detInv,
   (n13 * n22 * n41 - n12 * n23 * n41 - n13 * n21 * n42 + n11 * n23 * n42 +
    n12 * n21 * n43 - n11 * n22 * n43) * detInv,
   t14 * detInv,
   (n13 * n24 * n31 - n14 * n23 * n31 + n14 * n21 * n33 - n11 * n24 * n33 -
    n13 * n21 * n34 + n11 * n23 * n34) * detInv,
   (n14 * n22 * n31 - n12 * n24 * n31 - n14 * n21 * n32 + n11 * n24 * n32 +
    n12 * n21 * n34 - n11 * n22 * n34) * detInv,
   (n12 * n23 * n31 - n13 * n22 * n31 + n13 * n21 * n32 - n11 * n23 * n32 -
    n12 * n21 * n33 + n11 * n22 * n33) * detInv⟩

/-- `Transform.TryGetInverse()` (src/src/Transform.ts, lines 1020-1057):
    `null` exactly when the internal cofactor determinant `=== 0`. -/
def Transform.TryGetInverse (x : Transform) : Option Transform :=
  if Transform.tgiDet x = 0 then none else some (Transform.InverseMatrix x)

/-- The internal cofactor determinant of `TryGetInverse` and the `Determinant`
    getter are the same polynomial in the 16 entries. -/
theorem Transform.tgiDet_eq_determinant (x : Transform) : x.tgiDet = x.Determinant := by
  unfold Transform.tgiDet Transform.Determinant
  ring

/-- Epsilon equality of a transform with itself. -/
theorem Transform.equals_self (a : Transform) : Transform.Equals a a := by
  refine ⟨?_, ?_, ?_, ?_, ?_, ?_, ?_, ?_, ?_, ?_, ?_, ?_, ?_, ?_, ?_, ?_⟩ <;>
    simp [Open3dMath.EpsilonEquals, EPSILON] <;> norm_num

/-- When the determinant is nonzero, the row-major product of a transform with
    the matrix produced by `TryGetInverse` is exactly the identity matrix. -/
theorem Transform.mul_inverseMatrix (x : Transform) (h : x.tgiDet ≠ 0) :
    Transform.MultiplyMatrix x (Transform.InverseMatrix x) = Transform.Identity := by
  have hd : x.tgiDet = x.m0 * (x.m9 * x.m14 * x.m7 - x.m13 * x.m10 * x.m7 +
      x.m13 * x.m6 * x.m11 - x.m5 * x.m14 * x.m11 - x.m9 * x.m6 * x.m15 +
      x.m5 * x.m10 * x.m15) + x.m1 * (x.m12 * x.m10 * x.m7 - x.m8 * x.m14 * x.m7 -
      x.m12 * x.m6 * x.m11 + x.m4 * x.m14 * x.m11 + x.m8 * x.m6 * x.m15 -
      x.m4 * x.m10 * x.m15) + x.m2 * (x.m8 * x.m13 * x.m7 - x.m12 * x.m9 * x.m7 +
      x.m12 * x.m5 * x.m11 - x.m4 * x.m13 * x.m11 - x.m8 * x.m5 * x.m15 +
      x.m4 * x.m9 * x.m15) + x.m3 * (x.m12 * x.m9 * x.m6 - x.m8 * x.m13 * x.m6 -
      x.m12 * x.m5 * x.m10 + x.m4 * x.m13 * x.m10 + x.m8 * x.m5 * x.m14 -
      x.m4 * x.m9 * x.m14) := by
    unfold Transform.tgiDet
    ring
  rw [hd] at h
  unfold Transform.MultiplyMatrix Transform.InverseMatrix Transform.Identity
  simp only [Transform.mk.injEq]
  refine ⟨?_, ?_, ?_, ?_, ?_, ?_, ?_, ?_, ?_, ?_, ?_, ?_, ?_, ?_, ?_, ?_⟩ <;>
    field_simp <;> ring

/-- C3: for every transform with nonzero determinant, `TryGetInverse` returns a
    matrix `M` with `Transform.Equals (Transform.MultiplyMatrix T M) Identity`
    (exactly the identity in real arithmetic, hence epsilon-equal). -/
theorem c3_trygetinverse_roundtrip (T : Transform) (h : T.Determinant ≠ 0) :
    ∃ M, T.TryGetInverse = some M ∧
      Transform.Equals (Transform.MultiplyMatrix T M) Transform.Identity := by
  have hd : T.tgiDet ≠ 0 := by rw [Transform.tgiDet_eq_determinant]; exact h
  refine ⟨Transform.InverseMatrix T, ?_, ?_⟩
  · simp [Transform.TryGetInverse, hd]
  · rw [Transform.mul_inverseMatrix T hd]
    exact Transform.equals_self _

/-- C3 witness: the identity transform has nonzero determinant and multiplying
    it with its computed inverse is epsilon-equal to the identity. -/
theorem c3_trygetinverse_roundtrip_witness :
    ∃ M, Transform.Identity.TryGetInverse = some M ∧
      Transform.Equals (Transform.MultiplyMatrix Transform.Identity M) Transform.Identity :=
  c3_trygetinverse_roundtrip Transform.Identity (by
    unfold Transform.Determinant Transform.Identity
    norm_num)

/-- C4: `TryGetInverse` returns `null` if and only if the `Determinant` getter
    is exactly `0` (no epsilon tolerance), the internal cofactor determinant of
    `TryGetInverse` agrees with the `Determinant` getter, and every transform
    with nonzero determinant (however small in absolute value) yields a
    non-null inverse. -/
theorem c4_trygetinverse_exact_singular (T : Transform) :
    (T.TryGetInverse = none ↔ T.Determinant = 0) ∧
    T.tgiDet = T.Determinant ∧
    (T.Determinant ≠ 0 → ∃ M, T.TryGetInverse = some M) := by
  have he := Transform.tgiDet_eq_determinant T
  refine ⟨?_, he, ?_⟩
  · unfold Transform.TryGetInverse
    rw [he]
    by_cases h : T.Determinant = 0 <;> simp [h]
  · intro h
    have hd : T.tgiDet ≠ 0 := by rw [he]; exact h
    exact ⟨Transform.InverseMatrix T, by simp [Transform.TryGetInverse, hd]⟩

/-- C4 witness: the zero transformation has determinant 0 and `TryGetInverse`
    returns `null` on it, via the equivalence of `c4_trygetinverse_exact_singular`. -/
theorem c4_trygetinverse_exact_singular_witness :
    Transform.ZeroTransformation.TryGetInverse = none :=
  (c4_trygetinverse_exact_singular Transform.ZeroTransformation).1.mpr (by
    unfold Transform.Determinant Transform.ZeroTransformation
    norm_num)

/-- The `BoundingBox` class: six numeric extremes (part_012). -/
structure BoundingBox where
  minX : ℝ
  minY : ℝ
  minZ : ℝ
  maxX : ℝ
  maxY : ℝ
  maxZ : ℝ

/-- `BoundingBox.Empty`: `new BoundingBox(1, 0, 0, -1, 0, 0)`. -/
def BoundingBox.Empty : BoundingBox := ⟨1, 0, 0, -1, 0, 0⟩

/-- `BoundingBox.IsValid`. -/
def BoundingBox.IsValid (b : BoundingBox) : Prop :=
  b.minX ≤ b.maxX ∧ b.minY ≤ b.maxY ∧ b.minZ ≤ b.maxZ

/-- `BoundingBox.Min` getter. -/
def BoundingBox.Min (b : BoundingBox) : Point3d := ⟨b.minX, b.minY, b.minZ⟩

/-- `BoundingBox.Max` getter. -/
def BoundingBox.Max (b : BoundingBox) : Point3d := ⟨b.maxX, b.maxY, b.maxZ⟩

/-- `BoundingBox.Clone`. -/
def BoundingBox.Clone (b : BoundingBox) : BoundingBox :=
  ⟨b.minX, b.minY, b.minZ, b.maxX, b.maxY, b.maxZ⟩

/-- `BoundingBox.ContainsPoint(testPoint, strict)` (part_012, lines 315-325):
    `strict` selects the inclusive (`>=`, `<=`) comparisons and `!strict` the
    exclusive (`>`, `<`) ones, exactly as in the source. -/
def BoundingBox.ContainsPoint (b : BoundingBox) (testPoint : Point3d) (strict : Bool) : Bool :=
  if strict then
    if testPoint.X ≥ b.minX ∧ testPoint.X ≤ b.maxX ∧ testPoint.Y ≥ b.minY ∧
       testPoint.Y ≤ b.maxY ∧ testPoint.Z ≥ b.minZ ∧ testPoint.Z ≤ b.maxZ
    then true else false
  else
    if testPoint.X > b.minX ∧ testPoint.X < b.maxX ∧ testPoint.Y > b.minY ∧
       testPoint.Y < b.maxY ∧ testPoint.Z > b.minZ ∧ testPoint.Z < b.maxZ
    then true else false

/-- `BoundingBox.Intersect(a, b)` (part_012, lines 451-464). -/
def BoundingBox.Intersect (a b : BoundingBox) : BoundingBox :=
  if ¬a.IsValid ∧ ¬b.IsValid then BoundingBox.Empty
  else if ¬a.IsValid then b.Clone
  else if ¬b.IsValid then a.Clone
  else ⟨max a.minX b.minX, max a.minY b.minY, max a.minZ b.minZ,
        min a.maxX b.maxX, min a.maxY b.maxY, min a.maxZ b.maxZ⟩

/-- `BoundingBox.Union(a, b)` (part_012, lines 473-486). -/
def BoundingBox.Union (a b : BoundingBox) : BoundingBox :=
  if ¬a.IsValid ∧ ¬b.IsValid then BoundingBox.Empty
  else if ¬a.IsValid then b.Clone
  else if ¬b.IsValid then a.Clone
  else ⟨min a.minX b.minX, min a.minY b.minY, min a.minZ b.minZ,
        max a.maxX b.maxX, max a.maxY b.maxY, max a.maxZ b.maxZ⟩

/-- C7: `BoundingBox.Union` / `Intersect` ignore invalid operands: one invalid
    operand gives a clone of the valid one (and a clone is value-equal to the
    original), two invalid operands give the Empty sentinel whose extremes are
    `Min=(1,0,0)` and `Max=(-1,0,0)`, and two valid operands give the
    componentwise min/max (Union) resp. max/min (Intersect) extremes. -/
theorem c7_union_intersect_invalid_policy (a b : BoundingBox) :
    (¬a.IsValid ∧ ¬b.IsValid →
      BoundingBox.Union a b = BoundingBox.Empty ∧
      BoundingBox.Intersect a b = BoundingBox.Empty) ∧
    (a.IsValid ∧ ¬b.IsValid →
      BoundingBox.Union a b = a.Clone ∧ BoundingBox.Intersect a b = a.Clone) ∧
    (¬a.IsValid ∧ b.IsValid →
      BoundingBox.Union a b = b.Clone ∧ BoundingBox.Intersect a b = b.Clone) ∧
    (a.IsValid ∧ b.IsValid →
      BoundingBox.Union a b =
        ⟨min a.minX b.minX, min a.minY b.minY, min a.minZ b.minZ,
         max a.maxX b.maxX, max a.maxY b.maxY, max a.maxZ b.maxZ⟩ ∧
      BoundingBox.Intersect a b =
        ⟨max a.minX b.minX, max a.minY b.minY, max a.minZ b.minZ,
         min a.maxX b.maxX, min a.maxY b.maxY, min a.maxZ b.maxZ⟩) ∧
    a.Clone = a ∧
    BoundingBox.Empty.Min = ⟨1, 0, 0⟩ ∧ BoundingBox.Empty.Max = ⟨-1, 0, 0⟩ := by
  refine ⟨?_, ?_, ?_, ?_, rfl, rfl, rfl⟩
  · rintro ⟨ha, hb⟩
    constructor <;> simp [BoundingBox.Union, BoundingBox.Intersect, ha, hb]
  · rintro ⟨ha, hb⟩
    constructor <;> simp [BoundingBox.Union, BoundingBox.Intersect, ha, hb]
  · rintro ⟨ha, hb⟩
    constructor <;> simp [BoundingBox.Union, BoundingBox.Intersect, ha, hb]
  · rintro ⟨ha, hb⟩
    constructor <;> simp [BoundingBox.Union, BoundingBox.Intersect, ha, hb]

/-- C7 witness: the union and intersection of the Empty box with the unit box
    are clones of the unit box. -/
theorem c7_union_intersect_invalid_policy_witness :
    BoundingBox.Union BoundingBox.Empty ⟨0, 0, 0, 1, 1, 1⟩ =
      BoundingBox.Clone ⟨0, 0, 0, 1, 1, 1⟩ ∧
    BoundingBox.Intersect BoundingBox.Empty ⟨0, 0, 0, 1, 1, 1⟩ =
      BoundingBox.Clone ⟨0, 0, 0, 1, 1, 1⟩ :=
  (c7_union_intersect_invalid_policy BoundingBox.Empty ⟨0, 0, 0, 1, 1, 1⟩).2.2.1
    ⟨by norm_num [BoundingBox.Empty, BoundingBox.IsValid],
     by norm_num [BoundingBox.IsValid]⟩

/-- C10: for a valid box and a point lying exactly on one of its faces,
    `ContainsPoint` with `strict = true` returns `true` (inclusive test) and
    with `strict = false` returns `false` (exclusive test) — the opposite of
    what the `strict` documentation describes. -/
theorem c10_containspoint_strict_reversed (b : BoundingBox) (p : Point3d)
    (hv : b.IsValid)
    (hface :
      ((p.X = b.minX ∨ p.X = b.maxX) ∧ b.minY ≤ p.Y ∧ p.Y ≤ b.maxY ∧
        b.minZ ≤ p.Z ∧ p.Z ≤ b.maxZ) ∨
      ((p.Y = b.minY ∨ p.Y = b.maxY) ∧ b.minX ≤ p.X ∧ p.X ≤ b.maxX ∧
        b.minZ ≤ p.Z ∧ p.Z ≤ b.maxZ) ∨
      ((p.Z = b.minZ ∨ p.Z = b.maxZ) ∧ b.minX ≤ p.X ∧ p.X ≤ b.maxX ∧
        b.minY ≤ p.Y ∧ p.Y ≤ b.maxY)) :
    b.ContainsPoint p true = true ∧ b.ContainsPoint p false = false := by
  obtain ⟨hx, hy, hz⟩ := hv
  constructor
  · have hcond : p.X ≥ b.minX ∧ p.X ≤ b.maxX ∧ p.Y ≥ b.minY ∧ p.Y ≤ b.maxY ∧
        p.Z ≥ b.minZ ∧ p.Z ≤ b.maxZ := by
      rcases hface with ⟨hc, h1, h2, h3, h4⟩ | ⟨hc, h1, h2, h3, h4⟩ | ⟨hc, h1, h2, h3, h4⟩ <;>
        rcases hc with hc | hc <;>
        exact ⟨by linarith, by linarith, by linarith, by linarith, by linarith, by linarith⟩
    simp [BoundingBox.ContainsPoint, hcond]
  · have hncond : ¬(p.X > b.minX ∧ p.X < b.maxX ∧ p.Y > b.minY ∧ p.Y < b.maxY ∧
        p.Z > b.minZ ∧ p.Z < b.maxZ) := by
      rintro ⟨c1, c2, c3, c4, c5, c6⟩
      rcases hface with ⟨hc, h1, h2, h3, h4⟩ | ⟨hc, h1, h2, h3, h4⟩ | ⟨hc, h1, h2, h3, h4⟩ <;>
        rcases hc with hc | hc <;> linarith
    simp [BoundingBox.ContainsPoint, hncond]

/-- C10 witness: the unit box and the point `(0, 1/2, 1/2)` on its `minX`
    face. -/
theorem c10_containspoint_strict_reversed_witness :
    BoundingBox.ContainsPoint ⟨0, 0, 0, 1, 1, 1⟩ ⟨0, 1/2, 1/2⟩ true = true ∧
    BoundingBox.ContainsPoint ⟨0, 0, 0, 1, 1, 1⟩ ⟨0, 1/2, 1/2⟩ false = false :=
  c10_containspoint_strict_reversed ⟨0, 0, 0, 1, 1, 1⟩ ⟨0, 1/2, 1/2⟩
    (by refine ⟨by norm_num, by norm_num, by norm_num⟩)
    (Or.inl ⟨Or.inl rfl, by norm_num, by norm_num, by norm_num, by norm_num⟩)

/-- The `Line` class: two points (part_006). -/
structure Line where
  From : Point3d
  To : Point3d

/-- `Line.IsValid`: the endpoints are not epsilon-equal. -/
def Line.IsValid (l : Line) : Prop := ¬ l.From.Equals l.To

/-- The value of the `Line.Direction` getter, `To.SubtractPoint(From)`.  The
    source getter throws on an invalid line; this total function is only used
    at call sites where the caller has already checked `IsValid` (or where the
    throwing branch is modelled separately with `Except`). -/
def Line.DirectionV (l : Line) : Vector3d := l.To.SubtractPoint l.From

/-- `Line.UnitDirection = Direction.Unitize()`. -/
def Line.UnitDirection (l : Line) : Vector3d := l.DirectionV.Unitize

/-- `Line.Length = To.DistanceTo(From)`. -/
def Line.Length (l : Line) : ℝ := l.To.DistanceTo l.From

/-- The value computed by `Line.PointAt(param)` on a valid line:
    `Direction.Multiply(param).AddToPoint(From)`. -/
def Line.PointAtP (l : Line) (param : ℝ) : Point3d :=
  (l.DirectionV.Multiply param).AddToPoint l.From

/-- `Line.PointAt(param)` (part_006, lines 102-105): throws on an invalid
    line. -/
def Line.PointAtE (l : Line) (param : ℝ) : Except String Point3d :=
  if ¬ l.IsValid then .error "Cannot evaluate an invalid line."
  else .ok (l.PointAtP param)

/-- `Line.PointAtLength(distance)` (part_006, lines 112-115 and part_007,
    lines 99-102): throws on an invalid line, then returns
    `UnitDirection.Multiply(distance).AddToPoint(From)`. -/
def Line.PointAtLength (l : Line) (distance : ℝ) : Except String Point3d :=
  if ¬ l.IsValid then .error "Cannot evaluate an invalid line."
  else .ok ((l.UnitDirection.Multiply distance).AddToPoint l.From)

/-- `Line.LinePointClosestParameter(line, point)` (part_006, lines 237-247):
    returns 0 on an invalid line, else the unclamped projection parameter. -/
def Line.LinePointClosestParameter (l : Line) (point : Point3d) : ℝ :=
  if ¬ l.IsValid then 0
  else
    let startToP := point.SubtractPoint l.From
    let startToEnd := l.To.SubtractPoint l.From
    (startToEnd.DotProduct startToP) / (startToEnd.DotProduct startToEnd)

/-- `Line.LinePointClosestPoint(line, point, limitToFiniteSegment)` (part_006,
    lines 256-260): clamps the parameter when finite, then calls the throwing
    `PointAt`. -/
def Line.LinePointClosestPointE (l : Line) (point : Point3d)
    (limitToFiniteSegment : Bool) : Except String Point3d :=
  let t := l.LinePointClosestParameter point
  let t2 := if limitToFiniteSegment then Open3dMath.Clamp t 0 1 else t
  l.PointAtE t2

/-- `Line.LinePointDistance(line, point, limitToFiniteSegment)` (part_006,
    lines 269-272). -/
def Line.LinePointDistanceE (l : Line) (point : Point3d)
    (limitToFiniteSegment : Bool) : Except String ℝ :=
  (l.LinePointClosestPointE point limitToFiniteSegment).map
    (fun closestPoint => point.DistanceTo closestPoint)

/-- `Line.IsPointOn(point, limitToFiniteSegment, tolerance)` (part_006, lines
    168-171): distance to the closest point compared with the tolerance; the
    distance computation can throw on an invalid line. -/
def Line.IsPointOnE (l : Line) (point : Point3d) (limitToFiniteSegment : Bool)
    (tolerance : ℝ) : Except String Bool :=
  (l.LinePointDistanceE point limitToFiniteSegment).map
    (fun d => if d ≤ tolerance then true else false)

/-- C8 (as the code actually behaves): `Line.PointAtLength` on a degenerate
    line (`From` epsilon-equal to `To`, so `IsValid` is false) throws
    `Cannot evaluate an invalid line.` for every distance, contradicting its
    own documentation comment, which promises that the start point is always
    returned in that case. -/
theorem c8_pointatlength_throws_on_degenerate (l : Line) (d : ℝ) (h : ¬ l.IsValid) :
    l.PointAtLength d = .error "Cannot evaluate an invalid line." := by
  simp [Line.PointAtLength, h]

/-- C8 witness: the degenerate line from `(1,2,3)` to `(1,2,3)` at distance 5
    throws instead of returning `(1,2,3)`. -/
theorem c8_pointatlength_throws_on_degenerate_witness :
    Line.PointAtLength ⟨⟨1, 2, 3⟩, ⟨1, 2, 3⟩⟩ 5 = .error "Cannot evaluate an invalid line." :=
  c8_pointatlength_throws_on_degenerate ⟨⟨1, 2, 3⟩, ⟨1, 2, 3⟩⟩ 5 (by
    norm_num [Line.IsValid, Point3d.Equals, Open3dMath.EpsilonEquals, EPSILON])

/-- The `IntersectionEvent` class (src/src/intersectionEvent.ts). -/
structure IntersectionEvent where
  ParameterA : ℝ
  ParameterB : ℝ
  PointA : Point3d
  PointB : Point3d

/-- `Intersection.LineLineTParameters(line1, line2)` (src/src/Open3dMath.ts,
    lines 305-328): the Paul Bourke closest-approach parameters, `null` when
    the denominator is epsilon-zero. -/
def Intersection.LineLineTParameters (line1 line2 : Line) : Option (ℝ × ℝ) :=
  let p13 := line1.From.SubtractPoint line2.From
  let p43 := line2.DirectionV
  let p21 := line1.DirectionV
  let d1343 := p13.DotProduct p43
  let d4321 := p43.DotProduct p21
  let d1321 := p13.DotProduct p21
  let d4343 := p43.DotProduct p43
  let d2121 := p21.DotProduct p21
  let denom := d2121 * d4343 - d4321 * d4321
  let numer := d1343 * d4321 - d1321 * d4343
  if Open3dMath.EpsilonEquals denom 0 EPSILON then none
  else
    let mua := numer / denom
    let mub := (d1343 + d4321 * mua) / d4343
    some (mua, mub)

/-- `Intersection.CrossingLineLine(firstLine, secondLine, limitToFiniteSegment,
    distance)` (src/src/Open3dMath.ts, lines 354-372). -/
def Intersection.CrossingLineLine (firstLine secondLine : Line)
    (limitToFiniteSegment : Bool) (distance : ℝ) : Option IntersectionEvent :=
  if ¬ firstLine.IsValid ∨ ¬ secondLine.IsValid then none
  else
    match Intersection.LineLineTParameters firstLine secondLine with
    | none => none
    | some (mua, mub) =>
      let pointA := firstLine.PointAtP mua
      let pointB := secondLine.PointAtP mub
      let d := pointA.DistanceTo pointB
      if limitToFiniteSegment ∧ (mua < 0 ∨ mua > 1 ∨ mub < 0 ∨ mub > 1) then none
      else if d > distance then none
      else some ⟨mua, mub, pointA, pointB⟩

/-- `Intersection.LineLine(firstLine, secondLine, limitToFiniteSegment,
    distance)` (src/src/Open3dMath.ts, lines 339-343): the midpoint
    `(PointA + PointB) * 0.5` of the crossing event, or `null`. -/
def Intersection.LineLine (firstLine secondLine : Line)
    (limitToFiniteSegment : Bool) (distance : ℝ) : Option Point3d :=
  match Intersection.CrossingLineLine firstLine secondLine limitToFiniteSegment distance with
  | some crossing => some ((crossing.PointA.AddPoint crossing.PointB).Multiply 0.5)
  | none => none

/-- C2: for the line `(3,3,0)-(5,5,0)` and the line `(3,5,0)-(5,3,0)` with the
    default arguments (`limitToFiniteSegment = false`, `distance = EPSILON`),
    the closest-approach parameters are `(1/2, 1/2)` (so the denominator is
    not epsilon-zero), the two closest points coincide at `(4,4,0)`, and
    `Intersection.LineLine` returns their midpoint `(4,4,0)`. -/
theorem c2_lineline_scenario :
    Intersection.LineLineTParameters ⟨⟨3, 3, 0⟩, ⟨5, 5, 0⟩⟩ ⟨⟨3, 5, 0⟩, ⟨5, 3, 0⟩⟩ =
      some (1 / 2, 1 / 2) ∧
    Intersection.CrossingLineLine ⟨⟨3, 3, 0⟩, ⟨5, 5, 0⟩⟩ ⟨⟨3, 5, 0⟩, ⟨5, 3, 0⟩⟩ false EPSILON =
      some ⟨1 / 2, 1 / 2, ⟨4, 4, 0⟩, ⟨4, 4, 0⟩⟩ ∧
    Intersection.LineLine ⟨⟨3, 3, 0⟩, ⟨5, 5, 0⟩⟩ ⟨⟨3, 5, 0⟩, ⟨5, 3, 0⟩⟩ false EPSILON =
      some ⟨4, 4, 0⟩ := by
  have ht : Intersection.LineLineTParameters ⟨⟨3, 3, 0⟩, ⟨5, 5, 0⟩⟩ ⟨⟨3, 5, 0⟩, ⟨5, 3, 0⟩⟩ =
      some (1 / 2, 1 / 2) := by
    norm_num [Intersection.LineLineTParameters, Line.DirectionV, Point3d.SubtractPoint,
      Vector3d.DotProduct, Open3dMath.EpsilonEquals, EPSILON]
  have hc : Intersection.CrossingLineLine ⟨⟨3, 3, 0⟩, ⟨5, 5, 0⟩⟩ ⟨⟨3, 5, 0⟩, ⟨5, 3, 0⟩⟩
      false EPSILON = some ⟨1 / 2, 1 / 2, ⟨4, 4, 0⟩, ⟨4, 4, 0⟩⟩ := by
    rw [Intersection.CrossingLineLine, ht]
    norm_num [Line.IsValid, Point3d.Equals, Open3dMath.EpsilonEquals, EPSILON,
      Line.PointAtP, Line.DirectionV, Point3d.SubtractPoint, Vector3d.Multiply,
      Vector3d.AddToPoint, Point3d.DistanceTo, Point3d.Distance]
  refine ⟨ht, hc, ?_⟩
  rw [Intersection.LineLine, hc]
  norm_num [Point3d.AddPoint, Point3d.Multiply]

/-- Dot product of a unitized vector: the scalar factors out of the sum. -/
theorem Vector3d.unitize_dotProduct (v w : Vector3d) :
    (v.Unitize).DotProduct w = v.DotProduct w / v.Length := by
  unfold Vector3d.Unitize Vector3d.DotProduct
  ring

/-- The `Plane` class: origin and three axes (src/src/Plane.ts). -/
structure Plane where
  Origin : Point3d
  XAxis : Vector3d
  YAxis : Vector3d
  ZAxis : Vector3d

/-- The `Plane` constructor (src/src/Plane.ts, lines 38-47): unitize `xAxis`
    and `yAxis`, derive `zAxis = xAxis.CrossProduct(yAxis).Unitize()`, then
    re-derive `yAxis = zAxis.CrossProduct(xAxis).Unitize()`. -/
def Plane.create (origin : Point3d) (xAxis yAxis : Vector3d) : Plane :=
  let x := xAxis.Unitize
  let y0 := yAxis.Unitize
  let z := (x.CrossProduct y0).Unitize
  let y := (z.CrossProduct x).Unitize
  ⟨origin, x, y, z⟩

/-- `Plane.Normal = ZAxis.Unitize()` (src/src/Plane.ts, lines 53-55). -/
def Plane.Normal (p : Plane) : Vector3d := p.ZAxis.Unitize

/-- `Plane.CreateFromNormal(origin, normal)` (src/src/Plane.ts, lines
    226-232). -/
def Plane.CreateFromNormal (origin : Point3d) (normal : Vector3d) : Plane :=
  let zAxis := normal.Unitize
  let xAxis := normal.GetPerpendicularVector
  let yAxis := (zAxis.CrossProduct xAxis).Unitize
  Plane.create origin xAxis yAxis

/-- `Plane.CreateFromFrame(origin, xAxis, yAxis)` (src/src/Plane.ts, lines
    241-243). -/
def Plane.CreateFromFrame (origin : Point3d) (xAxis yAxis : Vector3d) : Plane :=
  Plane.create origin xAxis yAxis

/-- `Plane.Clone()`: re-create from origin, XAxis and YAxis. -/
def Plane.Clone (p : Plane) : Plane := Plane.create p.Origin p.XAxis p.YAxis

/-- `Plane.Flip()`: swap X and Y axes. -/
def Plane.Flip (p : Plane) : Plane := Plane.create p.Origin p.YAxis p.XAxis

/-- `Plane.Transform(transformation)` (src/src/Plane.ts, lines 208-214). -/
def Plane.TransformBy (p : Plane) (transformation : Transform) : Plane :=
  Plane.create (p.Origin.TransformBy transformation)
    (p.XAxis.TransformBy transformation) (p.YAxis.TransformBy transformation)

/-- `Intersection.LinePlane(line, plane, limitToFiniteSegment)`
    (src/src/Open3dMath.ts, lines 381-397).  The evaluation of
    `line.UnitDirection` throws on an invalid line (via the `Direction`
    getter), modelled by the error branch. -/
def Intersection.LinePlane (line : Line) (plane : Plane)
    (limitToFiniteSegment : Bool) : Except String (Option Point3d) :=
  if ¬ line.IsValid then .error "Cannot get direction of an invalid line."
  else
    let diff := line.From.SubtractPoint plane.Origin
    let projectLine := diff.DotProduct plane.Normal
    let projectNormal := line.UnitDirection.DotProduct plane.Normal
    if Open3dMath.EpsilonEquals projectNormal 0 EPSILON then .ok none
    else
      let projectLength := -projectLine / projectNormal
      if limitToFiniteSegment ∧ (projectLength < 0 ∨ projectLength > line.Length) then .ok none
      else .ok (some (line.From.Add (line.UnitDirection.Multiply projectLength)))

/-- C5: for every valid line and plane (with a non-degenerate `ZAxis`, so the
    `Normal` getter does not throw): if `|UnitDirection ⬝ Normal| < EPSILON`
    then `LinePlane` returns `null` — in particular whenever both endpoints
    lie exactly on the plane — and otherwise it returns
    `From + UnitDirection * t` with
    `t = -((From - Origin) ⬝ Normal) / (UnitDirection ⬝ Normal)`, except that
    under `limitToFiniteSegment` it returns `null` unless `0 ≤ t ≤ Length`. -/
theorem c5_lineplane_parallel_policy (l : Line) (p : Plane) (lim : Bool)
    (hv : l.IsValid) :
    (Open3dMath.EpsilonEquals (l.UnitDirection.DotProduct p.Normal) 0 EPSILON →
      Intersection.LinePlane l p lim = .ok none) ∧
    ((l.From.SubtractPoint p.Origin).DotProduct p.Normal = 0 ∧
      (l.To.SubtractPoint p.Origin).DotProduct p.Normal = 0 →
      Intersection.LinePlane l p lim = .ok none) ∧
    (¬ Open3dMath.EpsilonEquals (l.UnitDirection.DotProduct p.Normal) 0 EPSILON →
      (lim = false →
        Intersection.LinePlane l p lim = .ok (some (l.From.Add (l.UnitDirection.Multiply
          (-((l.From.SubtractPoint p.Origin).DotProduct p.Normal) /
            (l.UnitDirection.DotProduct p.Normal)))))) ∧
      (lim = true →
        (0 ≤ -((l.From.SubtractPoint p.Origin).DotProduct p.Normal) /
            (l.UnitDirection.DotProduct p.Normal) ∧
         -((l.From.SubtractPoint p.Origin).DotProduct p.Normal) /
            (l.UnitDirection.DotProduct p.Normal) ≤ l.Length →
          Intersection.LinePlane l p lim = .ok (some (l.From.Add (l.UnitDirection.Multiply
            (-((l.From.SubtractPoint p.Origin).DotProduct p.Normal) /
              (l.UnitDirection.DotProduct p.Normal)))))) ∧
        (-((l.From.SubtractPoint p.Origin).DotProduct p.Normal) /
            (l.UnitDirection.DotProduct p.Normal) < 0 ∨
         -((l.From.SubtractPoint p.Origin).DotProduct p.Normal) /
            (l.UnitDirection.DotProduct p.Normal) > l.Length →
          Intersection.LinePlane l p lim = .ok none))) := by
  refine ⟨?_, ?_, ?_⟩
  · intro h
    simp [Intersection.LinePlane, hv, h]
  · rintro ⟨h1, h2⟩
    have hnum : l.DirectionV.DotProduct p.Normal = 0 := by
      simp only [Line.DirectionV, Point3d.SubtractPoint, Vector3d.DotProduct] at h1 h2 ⊢
      linear_combination h2 - h1
    have hdot : l.UnitDirection.DotProduct p.Normal = 0 := by
      rw [Line.UnitDirection, Vector3d.unitize_dotProduct, hnum, zero_div]
    have heps : Open3dMath.EpsilonEquals (l.UnitDirection.DotProduct p.Normal) 0 EPSILON := by
      rw [hdot]
      norm_num [Open3dMath.EpsilonEquals, EPSILON]
    simp [Intersection.LinePlane, hv, heps]
  · intro h
    constructor
    · intro hlim
      subst hlim
      simp [Intersection.LinePlane, hv, h]
    · intro hlim
      subst hlim
      constructor
      · rintro ⟨ht0, ht1⟩
        have hni : ¬(-((l.From.SubtractPoint p.Origin).DotProduct p.Normal) /
            (l.UnitDirection.DotProduct p.Normal) < 0 ∨
          -((l.From.SubtractPoint p.Origin).DotProduct p.Normal) /
            (l.UnitDirection.DotProduct p.Normal) > l.Length) := by
          push_neg
          exact ⟨ht0, ht1⟩
        simp [Intersection.LinePlane, hv, h, hni]
      · intro ht
        simp [Intersection.LinePlane, hv, h, ht]

/-- C5 witness: the valid line from `(0,0,0)` to `(0,0,2)` meets the XY plane
    built by the constructor in `(0,0,0)` (parameter `t = 0`), via the
    non-parallel branch of `c5_lineplane_parallel_policy`. -/
theorem c5_lineplane_parallel_policy_witness :
    Intersection.LinePlane ⟨⟨0, 0, 0⟩, ⟨0, 0, 2⟩⟩
      (Plane.create ⟨0, 0, 0⟩ ⟨1, 0, 0⟩ ⟨0, 1, 0⟩) false = .ok (some ⟨0, 0, 0⟩) := by
  have h4 : Real.sqrt 4 = 2 := by
    rw [show (4 : ℝ) = 2 ^ 2 by norm_num, Real.sqrt_sq (by norm_num : (0 : ℝ) ≤ 2)]
  have hU : Line.UnitDirection ⟨⟨0, 0, 0⟩, ⟨0, 0, 2⟩⟩ = ⟨0, 0, 1⟩ := by
    norm_num [Line.UnitDirection, Line.DirectionV, Point3d.SubtractPoint,
      Vector3d.Unitize, Vector3d.Length, h4]
  have hN : (Plane.create ⟨0, 0, 0⟩ ⟨1, 0, 0⟩ ⟨0, 1, 0⟩).Normal = ⟨0, 0, 1⟩ := by
    norm_num [Plane.create, Plane.Normal, Vector3d.Unitize, Vector3d.Length,
      Vector3d.CrossProduct, Real.sqrt_one]
  have hv : Line.IsValid ⟨⟨0, 0, 0⟩, ⟨0, 0, 2⟩⟩ := by
    norm_num [Line.IsValid, Point3d.Equals, Open3dMath.EpsilonEquals, EPSILON]
  have h : ¬ Open3dMath.EpsilonEquals
      ((Line.UnitDirection ⟨⟨0, 0, 0⟩, ⟨0, 0, 2⟩⟩).DotProduct
        (Plane.create ⟨0, 0, 0⟩ ⟨1, 0, 0⟩ ⟨0, 1, 0⟩).Normal) 0 EPSILON := by
    rw [hU, hN]
    norm_num [Vector3d.DotProduct, Open3dMath.EpsilonEquals, EPSILON]
  have happ := ((c5_lineplane_parallel_policy ⟨⟨0, 0, 0⟩, ⟨0, 0, 2⟩⟩
      (Plane.create ⟨0, 0, 0⟩ ⟨1, 0, 0⟩ ⟨0, 1, 0⟩) false hv).2.2 h).1 rfl
  rw [happ, hU, hN]
  norm_num [Plane.create, Point3d.SubtractPoint, Vector3d.DotProduct, Point3d.Add,
    Vector3d.Multiply]

/-- A vector whose three components vanish is the zero vector. -/
theorem Vector3d.eq_zero_of_components (v : Vector3d)
    (h : v.X = 0 ∧ v.Y = 0 ∧ v.Z = 0) : v = Vector3d.Zero := by
  obtain ⟨x, y, z⟩ := v
  obtain ⟨h1, h2, h3⟩ := h
  simp only at h1 h2 h3
  simp [Vector3d.Zero, h1, h2, h3]

/-- The cross product is perpendicular to its first factor. -/
theorem Vector3d.cross_dotProduct_left (u v : Vector3d) :
    (u.CrossProduct v).DotProduct u = 0 := by
  unfold Vector3d.CrossProduct Vector3d.DotProduct
  ring

/-- A vector is perpendicular to a cross product having it as second factor. -/
theorem Vector3d.dotProduct_cross_self (u v : Vector3d) :
    u.DotProduct (v.CrossProduct u) = 0 := by
  unfold Vector3d.CrossProduct Vector3d.DotProduct
  ring

/-- Commutativity of the dot product. -/
theorem Vector3d.dotProduct_comm (u v : Vector3d) :
    u.DotProduct v = v.DotProduct u := by
  unfold Vector3d.DotProduct
  ring

/-- Lagrange identity for the squared norm of a cross product. -/
theorem Vector3d.cross_norm_sq (u v : Vector3d) :
    (u.CrossProduct v).DotProduct (u.CrossProduct v) =
      u.DotProduct u * v.DotProduct v - u.DotProduct v ^ 2 := by
  unfold Vector3d.CrossProduct Vector3d.DotProduct
  ring

/-- A unitized nonzero vector has unit dot product with itself. -/
theorem Vector3d.unitize_dot_self (v : Vector3d)
    (hv : ¬(v.X = 0 ∧ v.Y = 0 ∧ v.Z = 0)) :
    v.Unitize.DotProduct v.Unitize = 1 := by
  have hs : 0 < v.X ^ 2 + v.Y ^ 2 + v.Z ^ 2 := by
    by_cases hx : v.X = 0
    · by_cases hy : v.Y = 0
      · have hz : v.Z ≠ 0 := fun hz => hv ⟨hx, hy, hz⟩
        have : 0 < v.Z ^ 2 := lt_of_le_of_ne (sq_nonneg _) (Ne.symm (pow_ne_zero 2 hz))
        nlinarith [sq_nonneg v.X, sq_nonneg v.Y]
      · have : 0 < v.Y ^ 2 := lt_of_le_of_ne (sq_nonneg _) (Ne.symm (pow_ne_zero 2 hy))
        nlinarith [sq_nonneg v.X, sq_nonneg v.Z]
    · have : 0 < v.X ^ 2 := lt_of_le_of_ne (sq_nonneg _) (Ne.symm (pow_ne_zero 2 hx))
      nlinarith [sq_nonneg v.Y, sq_nonneg v.Z]
  have hsqrtpos : 0 < Real.sqrt (v.X ^ 2 + v.Y ^ 2 + v.Z ^ 2) := Real.sqrt_pos.mpr hs
  have hsq : Real.sqrt (v.X ^ 2 + v.Y ^ 2 + v.Z ^ 2) ^ 2 = v.X ^ 2 + v.Y ^ 2 + v.Z ^ 2 :=
    Real.sq_sqrt hs.le
  unfold Vector3d.Unitize Vector3d.DotProduct Vector3d.Length
  field_simp
  linarith [hsq]

/-- A vector with unit self dot product is unchanged by `Unitize`. -/
theorem Vector3d.unitize_of_dot_one (v : Vector3d) (h : v.DotProduct v = 1) :
    v.Unitize = v := by
  obtain ⟨x, y, z⟩ := v
  simp only [Vector3d.DotProduct] at h
  have hs : x ^ 2 + y ^ 2 + z ^ 2 = 1 := by linear_combination h
  simp [Vector3d.Unitize, Vector3d.Length, hs, Real.sqrt_one]

/-- Vector triple product with a unit first factor perpendicular to the other:
    `a × (z × a) = z` when `a⬝a = 1` and `a⬝z = 0`. -/
theorem Vector3d.cross_triple (a z : Vector3d) (haa : a.DotProduct a = 1)
    (haz : a.DotProduct z = 0) : a.CrossProduct (z.CrossProduct a) = z := by
  obtain ⟨x1, y1, z1⟩ := a
  obtain ⟨x2, y2, z2⟩ := z
  simp only [Vector3d.DotProduct] at haa haz
  simp only [Vector3d.CrossProduct, Vector3d.mk.injEq]
  refine ⟨?_, ?_, ?_⟩
  · linear_combination x2 * haa - x1 * haz
  · linear_combination y2 * haa - y1 * haz
  · linear_combination z2 * haa - z1 * haz

/-- The orthonormal-frame property of a plane: unit axes, mutual
    orthogonality, and `ZAxis = XAxis × YAxis`. -/
def Plane.OrthonormalFrame (p : Plane) : Prop :=
  p.XAxis.DotProduct p.XAxis = 1 ∧ p.YAxis.DotProduct p.YAxis = 1 ∧
  p.ZAxis.DotProduct p.ZAxis = 1 ∧ p.XAxis.DotProduct p.YAxis = 0 ∧
  p.XAxis.DotProduct p.ZAxis = 0 ∧ p.YAxis.DotProduct p.ZAxis = 0 ∧
  p.ZAxis = p.XAxis.CrossProduct p.YAxis

/-- C9: the `Plane` constructor re-orthonormalizes: for input axes that are
    nonzero and not parallel (their unitized cross product is nonzero), the
    resulting XAxis, YAxis and ZAxis are mutually orthonormal with
    `ZAxis = XAxis × YAxis`; and every factory (`CreateFromNormal`,
    `CreateFromFrame`, `Transform`, `Flip`, `Clone`) produces its plane through
    this constructor. -/
theorem c9_plane_constructor_orthonormal (o : Point3d) (xAxis yAxis : Vector3d)
    (h : xAxis.Unitize.CrossProduct yAxis.Unitize ≠ Vector3d.Zero) :
    Plane.OrthonormalFrame (Plane.create o xAxis yAxis) ∧
    (∀ (origin : Point3d) (normal : Vector3d),
      Plane.CreateFromNormal origin normal =
        Plane.create origin normal.GetPerpendicularVector
          ((normal.Unitize.CrossProduct normal.GetPerpendicularVector).Unitize)) ∧
    (∀ (origin : Point3d) (x y : Vector3d),
      Plane.CreateFromFrame origin x y = Plane.create origin x y) ∧
    (∀ P : Plane, P.Clone = Plane.create P.Origin P.XAxis P.YAxis) ∧
    (∀ P : Plane, P.Flip = Plane.create P.Origin P.YAxis P.XAxis) ∧
    (∀ (P : Plane) (T : Transform),
      P.TransformBy T = Plane.create (P.Origin.TransformBy T)
        (P.XAxis.TransformBy T) (P.YAxis.TransformBy T)) := by
  have hxne : ¬(xAxis.X = 0 ∧ xAxis.Y = 0 ∧ xAxis.Z = 0) := by
    rintro ⟨h1, h2, h3⟩
    apply h
    obtain ⟨x1, x2, x3⟩ := xAxis
    simp only at h1 h2 h3
    subst h1
    subst h2
    subst h3
    simp [Vector3d.Unitize, Vector3d.CrossProduct, Vector3d.Zero, Vector3d.Length]
  have ha1 : xAxis.Unitize.DotProduct xAxis.Unitize = 1 := Vector3d.unitize_dot_self xAxis hxne
  have hcne : ¬((xAxis.Unitize.CrossProduct yAxis.Unitize).X = 0 ∧
      (xAxis.Unitize.CrossProduct yAxis.Unitize).Y = 0 ∧
      (xAxis.Unitize.CrossProduct yAxis.Unitize).Z = 0) :=
    fun hc => h (Vector3d.eq_zero_of_components _ hc)
  have hz1 : (xAxis.Unitize.CrossProduct yAxis.Unitize).Unitize.DotProduct
      (xAxis.Unitize.CrossProduct yAxis.Unitize).Unitize = 1 :=
    Vector3d.unitize_dot_self _ hcne
  have hca : (xAxis.Unitize.CrossProduct yAxis.Unitize).DotProduct xAxis.Unitize = 0 :=
    Vector3d.cross_dotProduct_left _ _
  have hza : (xAxis.Unitize.CrossProduct yAxis.Unitize).Unitize.DotProduct xAxis.Unitize = 0 := by
    rw [Vector3d.unitize_dotProduct, hca, zero_div]
  have haz : xAxis.Unitize.DotProduct
      (xAxis.Unitize.CrossProduct yAxis.Unitize).Unitize = 0 := by
    rw [Vector3d.dotProduct_comm]
    exact hza
  have hww : ((xAxis.Unitize.CrossProduct yAxis.Unitize).Unitize.CrossProduct
        xAxis.Unitize).DotProduct
      ((xAxis.Unitize.CrossProduct yAxis.Unitize).Unitize.CrossProduct xAxis.Unitize) = 1 := by
    rw [Vector3d.cross_norm_sq, hz1, ha1, hza]
    norm_num
  have hwu : ((xAxis.Unitize.CrossProduct yAxis.Unitize).Unitize.CrossProduct
        xAxis.Unitize).Unitize =
      (xAxis.Unitize.CrossProduct yAxis.Unitize).Unitize.CrossProduct xAxis.Unitize :=
    Vector3d.unitize_of_dot_one _ hww
  have hP : Plane.create o xAxis yAxis = ⟨o, xAxis.Unitize,
      ((xAxis.Unitize.CrossProduct yAxis.Unitize).Unitize.CrossProduct xAxis.Unitize).Unitize,
      (xAxis.Unitize.CrossProduct yAxis.Unitize).Unitize⟩ := rfl
  refine ⟨?_, fun _ _ => rfl, fun _ _ _ => rfl, fun _ => rfl, fun _ => rfl, fun _ _ => rfl⟩
  rw [Plane.OrthonormalFrame, hP]
  dsimp only
  rw [hwu]
  refine ⟨ha1, hww, hz1, ?_, haz, ?_, ?_⟩
  · exact Vector3d.dotProduct_cross_self _ _
  · exact Vector3d.cross_dotProduct_left _ _
  · exact (Vector3d.cross_triple xAxis.Unitize
      (xAxis.Unitize.CrossProduct yAxis.Unitize).Unitize ha1 haz).symm

/-- C9 witness: the world axes `(1,0,0)` and `(0,1,0)` are nonzero and not
    parallel, and the constructor yields an orthonormal frame on them. -/
theorem c9_plane_constructor_orthonormal_witness :
    Plane.OrthonormalFrame (Plane.create Point3d.Origin ⟨1, 0, 0⟩ ⟨0, 1, 0⟩) :=
  (c9_plane_constructor_orthonormal Point3d.Origin ⟨1, 0, 0⟩ ⟨0, 1, 0⟩ (by
    norm_num [Vector3d.Unitize, Vector3d.Length, Vector3d.CrossProduct, Vector3d.Zero,
      Real.sqrt_one])).1

/-- Unclamped `Line.ClosestParameter(testPoint, false)`: the projection ratio
    `dot(To-From, P-From) / dot(To-From, To-From)`.  The source instance
    method throws on an invalid line; total here, used by `Plane.ClosestPoint`
    on the plane's axis lines (valid whenever the axes are nonzero). -/
def Line.ClosestParameterT (l : Line) (testPoint : Point3d) : ℝ :=
  let startToP := testPoint.SubtractPoint l.From
  let startToEnd := l.To.SubtractPoint l.From
  startToEnd.DotProduct startToP / startToEnd.DotProduct startToEnd

/-- `Plane.XAxisLine`: the line from the origin along the X axis. -/
def Plane.XAxisLine (p : Plane) : Line := ⟨p.Origin, p.Origin.Add p.XAxis⟩

/-- `Plane.YAxisLine`: the line from the origin along the Y axis. -/
def Plane.YAxisLine (p : Plane) : Line := ⟨p.Origin, p.Origin.Add p.YAxis⟩

/-- `Plane.PointAt(u, v) = Origin + XAxis*u + YAxis*v`. -/
def Plane.PointAtUV (p : Plane) (u v : ℝ) : Point3d :=
  (p.Origin.Add (p.XAxis.Multiply u)).Add (p.YAxis.Multiply v)

/-- `Plane.ClosestParameter(testPoint)`: two independent 1D projections onto
    the axis lines. -/
def Plane.ClosestParameter (p : Plane) (testPoint : Point3d) : ℝ × ℝ :=
  (p.XAxisLine.ClosestParameterT testPoint, p.YAxisLine.ClosestParameterT testPoint)

/-- `Plane.ClosestPoint(testPoint) = PointAt(u, v)`. -/
def Plane.ClosestPoint (p : Plane) (testPoint : Point3d) : Point3d :=
  p.PointAtUV (p.ClosestParameter testPoint).1 (p.ClosestParameter testPoint).2

/-- Componentwise epsilon equality of points with a caller-supplied
    tolerance. -/
def Point3d.EqualsTol (a b : Point3d) (tolerance : ℝ) : Prop :=
  Open3dMath.EpsilonEquals a.X b.X tolerance ∧ Open3dMath.EpsilonEquals a.Y b.Y tolerance ∧
    Open3dMath.EpsilonEquals a.Z b.Z tolerance

/-- Modelled from the spec: `Plane.CreateFrom3Points`, which is called by
    `Polyline.IsPlanar`/`TryGetPlane` but whose definition is not among the
    provided sources — "build a plane from the first three points
    (`CreateFrom3Points`-equivalent via `CreateFromNormal` off their cross
    product)". -/
def Plane.CreateFrom3Points (p0 p1 p2 : Point3d) : Plane :=
  Plane.CreateFromNormal p0 ((p1.SubtractPoint p0).CrossProduct (p2.SubtractPoint p0))

/-- Modelled from the spec: the tolerance-taking overload of
    `Plane.IsPointCoplanar` used by `Polyline` (the provided `Plane` sources
    only show the fixed-EPSILON variant) — "equality (epsilon) between the
    point and its plane projection", with the supplied tolerance. -/
def Plane.IsPointCoplanarTol (p : Plane) (point : Point3d) (tolerance : ℝ) : Prop :=
  Point3d.EqualsTol (p.ClosestPoint point) point tolerance

/-- `Transform.worldXYToFrame(origin, xAxis, yAxis, zAxis)`
    (src/src/Transform.ts, lines 929-931). -/
def Transform.worldXYToFrame (origin : Point3d) (xAxis yAxis zAxis : Vector3d) : Transform :=
  ⟨xAxis.X, yAxis.X, zAxis.X, origin.X, xAxis.Y, yAxis.Y, zAxis.Y, origin.Y,
   xAxis.Z, yAxis.Z, zAxis.Z, origin.Z, 0, 0, 0, 1⟩

/-- `Transform.frameToFramePoint` (src/src/Transform.ts, lines 946-963). -/
def Transform.frameToFramePoint (origin1 : Point3d) (xAxis1 yAxis1 zAxis1 : Vector3d)
    (origin2 : Point3d) (xAxis2 yAxis2 zAxis2 : Vector3d) (point : Point3d) : Point3d :=
  let locP := point.SubtractPoint origin1
  let xT := locP.DotProduct xAxis1
  let yT := locP.DotProduct yAxis1
  let zT := locP.DotProduct zAxis1
  ((origin2.Add (xAxis2.Multiply xT)).Add (yAxis2.Multiply yT)).Add (zAxis2.Multiply zT)

/-- `Transform.frameToFrame` (src/src/Transform.ts, lines 977-992). -/
def Transform.frameToFrame (origin1 : Point3d) (xAxis1 yAxis1 zAxis1 : Vector3d)
    (origin2 : Point3d) (xAxis2 yAxis2 zAxis2 : Vector3d) : Transform :=
  let o := Transform.frameToFramePoint origin1 xAxis1 yAxis1 zAxis1 origin2 xAxis2 yAxis2
    zAxis2 ⟨0, 0, 0⟩
  let x := Transform.frameToFramePoint origin1 xAxis1 yAxis1 zAxis1 origin2 xAxis2 yAxis2
    zAxis2 ⟨1, 0, 0⟩
  let y := Transform.frameToFramePoint origin1 xAxis1 yAxis1 zAxis1 origin2 xAxis2 yAxis2
    zAxis2 ⟨0, 1, 0⟩
  let z := Transform.frameToFramePoint origin1 xAxis1 yAxis1 zAxis1 origin2 xAxis2 yAxis2
    zAxis2 ⟨0, 0, 1⟩
  Transform.worldXYToFrame o (x.SubtractPoint o) (y.SubtractPoint o) (z.SubtractPoint o)

/-- `Transform.PlaneToPlane(fromPlane, toPlane)` (src/src/Transform.ts, lines
    1001-1003). -/
def Transform.PlaneToPlane (fromPlane toPlane : Plane) : Transform :=
  Transform.frameToFrame fromPlane.Origin fromPlane.XAxis fromPlane.YAxis fromPlane.ZAxis
    toPlane.Origin toPlane.XAxis toPlane.YAxis toPlane.ZAxis

/-- `Plane.PlaneXY`: the world XY plane through the origin. -/
def Plane.PlaneXY : Plane := Plane.create Point3d.Origin ⟨1, 0, 0⟩ ⟨0, 1, 0⟩

/-- The `Polyline` class: an ordered list of points (src/src/Polyline.ts). -/
def Polyline : Type := List Point3d

/-- `Polyline.Count`. -/
def Polyline.Count (pl : Polyline) : ℕ := List.length pl

/-- `Polyline.Get(i)` (out-of-range access yields the origin junk value; the
    embedding only reads indices below `Count`). -/
def Polyline.Get (pl : Polyline) (i : ℕ) : Point3d := List.getD pl i Point3d.Origin

/-- `Polyline.IsClosed`: more than two points and `First.Equals(Last)`. -/
def Polyline.IsClosed (pl : Polyline) : Prop :=
  pl.Count > 2 ∧ (pl.Get 0).Equals (pl.Get (pl.Count - 1))

/-- `Polyline.IsPlanar(tolerance)` (src/src/Polyline.ts, lines 407-420): fewer
    than 3 points is non-planar, else every point from index 3 on must be
    coplanar with the plane through the first three points. -/
def Polyline.IsPlanar (pl : Polyline) (tolerance : ℝ) : Prop :=
  3 ≤ pl.Count ∧ ∀ i, 3 ≤ i → i < pl.Count →
    (Plane.CreateFrom3Points (pl.Get 0) (pl.Get 1) (pl.Get 2)).IsPointCoplanarTol
      (pl.Get i) tolerance

/-- The consecutive vertex pairs of a polyline, in scan order. -/
def Polyline.segmentPairs (pl : Polyline) : List (Point3d × Point3d) :=
  List.zip pl (List.tail pl)

/-- The scan loop of `Polyline.IsPointOn` (src/src/Polyline.ts, lines
    455-467): first segment whose `Line.IsPointOn` is true wins; a thrown
    error from a degenerate segment propagates. -/
def Polyline.isPointOnScan (segs : List (Point3d × Point3d)) (point : Point3d)
    (tolerance : ℝ) : Except String Bool :=
  match segs with
  | [] => .ok false
  | (a, b) :: rest =>
    match Line.IsPointOnE ⟨a, b⟩ point true tolerance with
    | .error e => .error e
    | .ok true => .ok true
    | .ok false => Polyline.isPointOnScan rest point tolerance

/-- `Polyline.IsPointOn(point, tolerance)`. -/
def Polyline.IsPointOnE (pl : Polyline) (point : Point3d) (tolerance : ℝ) :
    Except String Bool :=
  if pl.Count < 2 then .ok false
  else Polyline.isPointOnScan (Polyline.segmentPairs pl) point tolerance

/-- `Polyline.IsPointInside2D(point)` (src/src/Polyline.ts, lines 510-530):
    the even-odd ray cast over the XY projection. -/
def Polyline.IsPointInside2D (pl : Polyline) (point : Point3d) : Bool :=
  let count := pl.Count
  (List.range count).foldl (fun inside i =>
    let j := if i = 0 then count - 1 else i - 1
    if (Xor' ((pl.Get i).Y > point.Y) ((pl.Get j).Y > point.Y)) ∧
       point.X < ((pl.Get j).X - (pl.Get i).X) * (point.Y - (pl.Get i).Y) /
         ((pl.Get j).Y - (pl.Get i).Y) + (pl.Get i).X
    then !inside else inside) false

/-- `Polyline.Transform(transformation)`. -/
def Polyline.TransformBy (pl : Polyline) (transformation : Transform) : Polyline :=
  List.map (fun p => Point3d.TransformBy p transformation) pl

/-- `Polyline.IsPointInside(point, tolerance)` (src/src/Polyline.ts, lines
    480-504): throws when not closed, throws when not planar, `false` when the
    point is on the polyline, `false` when the point is off the polyline's
    plane, else the 2D even-odd test after reorienting onto the XY plane. -/
def Polyline.IsPointInside (pl : Polyline) (point : Point3d) (tolerance : ℝ) :
    Except String Bool :=
  if ¬ pl.IsClosed then .error "Polyline is not closed."
  else if ¬ pl.IsPlanar tolerance then .error "Polyline is not planar."
  else
    match pl.IsPointOnE point tolerance with
    | .error e => .error e
    | .ok true => .ok false
    | .ok false =>
      let plane := Plane.CreateFrom3Points (pl.Get 0) (pl.Get 1) (pl.Get 2)
      if ¬ plane.IsPointCoplanarTol point tolerance then .ok false
      else
        let orient := Transform.PlaneToPlane plane Plane.PlaneXY
        .ok ((pl.TransformBy orient).IsPointInside2D (point.TransformBy orient))

/-- The boundary scan never throws when every scanned segment is valid. -/
theorem Polyline.isPointOnScan_ok (segs : List (Point3d × Point3d)) (point : Point3d)
    (tolerance : ℝ) (h : ∀ a b, (a, b) ∈ segs → Line.IsValid ⟨a, b⟩) :
    ∃ r, Polyline.isPointOnScan segs point tolerance = .ok r := by
  induction segs with
  | nil => exact ⟨false, rfl⟩
  | cons s rest ih =>
    obtain ⟨a, b⟩ := s
    have hab : Line.IsValid ⟨a, b⟩ := h a b (by simp)
    have hok : Line.IsPointOnE ⟨a, b⟩ point true tolerance =
        .ok (if Point3d.DistanceTo point ((Line.PointAtP ⟨a, b⟩
          (Open3dMath.Clamp (Line.LinePointClosestParameter ⟨a, b⟩ point) 0 1))) ≤ tolerance
          then true else false) := by
      simp [Line.IsPointOnE, Line.LinePointDistanceE, Line.LinePointClosestPointE,
        Line.PointAtE, Except.map, hab]
    rw [Polyline.isPointOnScan, hok]
    by_cases hd : Point3d.DistanceTo point ((Line.PointAtP ⟨a, b⟩
        (Open3dMath.Clamp (Line.LinePointClosestParameter ⟨a, b⟩ point) 0 1))) ≤ tolerance
    · exact ⟨true, by simp [hd]⟩
    · obtain ⟨r, hr⟩ := ih (fun x y hxy => h x y (by simp [hxy]))
      exact ⟨r, by simp [hd, hr]⟩

/-- C6 (amended): `Polyline.IsPointInside` throws whenever the polyline is not
    closed or not planar; when closed and planar it returns `false` whenever
    the boundary scan finds the point on the polyline (within tolerance), and
    `false` for a point not coplanar with the polyline's plane provided the
    boundary scan completed without hitting a degenerate segment — a
    degenerate segment makes the scan itself throw, which is why the scan
    outcome appears as a hypothesis; when all segments are valid the scan
    always completes. -/
theorem c6_ispointinside_policy (pl : Polyline) (point : Point3d) (tol : ℝ) :
    (¬ pl.IsClosed → pl.IsPointInside point tol = .error "Polyline is not closed.") ∧
    (pl.IsClosed → ¬ pl.IsPlanar tol →
      pl.IsPointInside point tol = .error "Polyline is not planar.") ∧
    (pl.IsClosed → pl.IsPlanar tol → pl.IsPointOnE point tol = .ok true →
      pl.IsPointInside point tol = .ok false) ∧
    (pl.IsClosed → pl.IsPlanar tol → pl.IsPointOnE point tol = .ok false →
      ¬ (Plane.CreateFrom3Points (pl.Get 0) (pl.Get 1) (pl.Get 2)).IsPointCoplanarTol
        point tol →
      pl.IsPointInside point tol = .ok false) ∧
    ((∀ a b, (a, b) ∈ Polyline.segmentPairs pl → Line.IsValid ⟨a, b⟩) →
      ∃ r, pl.IsPointOnE point tol = .ok r) := by
  refine ⟨?_, ?_, ?_, ?_, ?_⟩
  · intro hc
    simp [Polyline.IsPointInside, hc]
  · intro hc hp
    simp [Polyline.IsPointInside, hc, hp]
  · intro hc hp hon
    rw [Polyline.IsPointInside]
    simp only [hc, hp, not_true_eq_false, if_false]
    rw [hon]
  · intro hc hp hon hcop
    rw [Polyline.IsPointInside]
    simp only [hc, hp, not_true_eq_false, if_false]
    rw [hon]
    simp [hcop]
  · intro hval
    rw [Polyline.IsPointOnE]
    by_cases hcnt : pl.Count < 2
    · exact ⟨false, by simp [hcnt]⟩
    · obtain ⟨r, hr⟩ := Polyline.isPointOnScan_ok (Polyline.segmentPairs pl) point tol hval
      exact ⟨r, by simp [hcnt, hr]⟩

/-- Square root of 16. -/
theorem sqrt_sixteen : Real.sqrt 16 = 4 := by
  rw [show (16 : ℝ) = 4 ^ 2 by norm_num, Real.sqrt_sq (by norm_num : (0 : ℝ) ≤ 4)]

/-- The square root of a real at least 1 is not below the tolerance. -/
theorem sqrt_not_le_epsilon (x : ℝ) (hx : 1 ≤ x) : ¬ (Real.sqrt x ≤ EPSILON) := by
  intro hc
  have h1 : (1 : ℝ) ≤ Real.sqrt x := by
    rw [show (1 : ℝ) = Real.sqrt 1 from Real.sqrt_one.symm]
    exact Real.sqrt_le_sqrt hx
  unfold EPSILON at hc
  linarith

/-- Evaluation of `Line.IsPointOn` on a valid segment. -/
theorem Line.isPointOnE_eval (a b p : Point3d) (tol : ℝ) (h : Line.IsValid ⟨a, b⟩) :
    Line.IsPointOnE ⟨a, b⟩ p true tol =
      .ok (decide (p.DistanceTo (Line.PointAtP ⟨a, b⟩
        (Open3dMath.Clamp (Line.LinePointClosestParameter ⟨a, b⟩ p) 0 1)) ≤ tol)) := by
  simp [Line.IsPointOnE, Line.LinePointDistanceE, Line.LinePointClosestPointE,
    Line.PointAtE, Except.map, h]

/-- Evaluation of `Line.IsPointOn` on a degenerate segment: it throws. -/
theorem Line.isPointOnE_invalid (a b p : Point3d) (tol : ℝ) (h : ¬ Line.IsValid ⟨a, b⟩) :
    Line.IsPointOnE ⟨a, b⟩ p true tol = .error "Cannot evaluate an invalid line." := by
  simp [Line.IsPointOnE, Line.LinePointDistanceE, Line.LinePointClosestPointE,
    Line.PointAtE, Except.map, h]

/-- The plane built from `(0,0,0)`, `(2,0,0)`, `(2,2,0)` is the world XY
    frame. -/
theorem createFrom3Points_xy :
    Plane.CreateFrom3Points ⟨0, 0, 0⟩ ⟨2, 0, 0⟩ ⟨2, 2, 0⟩ =
      ⟨⟨0, 0, 0⟩, ⟨1, 0, 0⟩, ⟨0, 1, 0⟩, ⟨0, 0, 1⟩⟩ := by
  norm_num [Plane.CreateFrom3Points, Plane.CreateFromNormal, Plane.create,
    Vector3d.GetPerpendicularVector, Vector3d.Unitize, Vector3d.Length,
    Vector3d.CrossProduct, Point3d.SubtractPoint, sqrt_sixteen, Real.sqrt_one]

/-- Points of the form `(x, y, 0)` are coplanar with the world XY frame within
    any positive tolerance. -/
theorem xy_frame_coplanar (x y tol : ℝ) (htol : 0 < tol) :
    Plane.IsPointCoplanarTol ⟨⟨0, 0, 0⟩, ⟨1, 0, 0⟩, ⟨0, 1, 0⟩, ⟨0, 0, 1⟩⟩ ⟨x, y, 0⟩ tol := by
  norm_num [Plane.IsPointCoplanarTol, Plane.ClosestPoint, Plane.ClosestParameter,
    Plane.PointAtUV, Plane.XAxisLine, Plane.YAxisLine, Line.ClosestParameterT,
    Point3d.Add, Vector3d.Multiply, Point3d.SubtractPoint, Vector3d.DotProduct,
    Point3d.EqualsTol, Open3dMath.EpsilonEquals, htol]

/-- The point `(5,5,5)` is not coplanar with the world XY frame within the
    global tolerance. -/
theorem xy_frame_not_coplanar_555 :
    ¬ Plane.IsPointCoplanarTol ⟨⟨0, 0, 0⟩, ⟨1, 0, 0⟩, ⟨0, 1, 0⟩, ⟨0, 0, 1⟩⟩
      ⟨5, 5, 5⟩ EPSILON := by
  norm_num [Plane.IsPointCoplanarTol, Plane.ClosestPoint, Plane.ClosestParameter,
    Plane.PointAtUV, Plane.XAxisLine, Plane.YAxisLine, Line.ClosestParameterT,
    Point3d.Add, Vector3d.Multiply, Point3d.SubtractPoint, Vector3d.DotProduct,
    Point3d.EqualsTol, Open3dMath.EpsilonEquals, EPSILON]

/-- C6 counterexample: the closed planar polyline
    `(0,0,0), (2,0,0), (2,2,0), (2+1e-7,2,0), (0,0,0)` contains a degenerate
    segment; querying `IsPointInside` with the off-plane point `(5,5,5)`
    throws `Cannot evaluate an invalid line.` instead of returning `false`. -/
theorem c6_ispointinside_counterexample :
    Polyline.IsClosed [⟨0, 0, 0⟩, ⟨2, 0, 0⟩, ⟨2, 2, 0⟩, ⟨2 + 1e-7, 2, 0⟩, ⟨0, 0, 0⟩] ∧
    Polyline.IsPlanar [⟨0, 0, 0⟩, ⟨2, 0, 0⟩, ⟨2, 2, 0⟩, ⟨2 + 1e-7, 2, 0⟩, ⟨0, 0, 0⟩]
      EPSILON ∧
    ¬ (Plane.CreateFrom3Points ⟨0, 0, 0⟩ ⟨2, 0, 0⟩ ⟨2, 2, 0⟩).IsPointCoplanarTol
      ⟨5, 5, 5⟩ EPSILON ∧
    Polyline.IsPointInside [⟨0, 0, 0⟩, ⟨2, 0, 0⟩, ⟨2, 2, 0⟩, ⟨2 + 1e-7, 2, 0⟩, ⟨0, 0, 0⟩]
      ⟨5, 5, 5⟩ EPSILON = .error "Cannot evaluate an invalid line." := by
  have hclosed : Polyline.IsClosed
      [⟨0, 0, 0⟩, ⟨2, 0, 0⟩, ⟨2, 2, 0⟩, ⟨2 + 1e-7, 2, 0⟩, ⟨0, 0, 0⟩] := by
    constructor
    · norm_num [Polyline.Count]
    · norm_num [Polyline.Get, Polyline.Count, List.getD, Point3d.Equals,
        Open3dMath.EpsilonEquals, EPSILON]
  have hget0 : Polyline.Get [⟨0, 0, 0⟩, ⟨2, 0, 0⟩, ⟨2, 2, 0⟩, ⟨2 + 1e-7, 2, 0⟩,
      ⟨0, 0, 0⟩] 0 = (⟨0, 0, 0⟩ : Point3d) := rfl
  have hget1 : Polyline.Get [⟨0, 0, 0⟩, ⟨2, 0, 0⟩, ⟨2, 2, 0⟩, ⟨2 + 1e-7, 2, 0⟩,
      ⟨0, 0, 0⟩] 1 = (⟨2, 0, 0⟩ : Point3d) := rfl
  have hget2 : Polyline.Get [⟨0, 0, 0⟩, ⟨2, 0, 0⟩, ⟨2, 2, 0⟩, ⟨2 + 1e-7, 2, 0⟩,
      ⟨0, 0, 0⟩] 2 = (⟨2, 2, 0⟩ : Point3d) := rfl
  have hget3 : Polyline.Get [⟨0, 0, 0⟩, ⟨2, 0, 0⟩, ⟨2, 2, 0⟩, ⟨2 + 1e-7, 2, 0⟩,
      ⟨0, 0, 0⟩] 3 = (⟨2 + 1e-7, 2, 0⟩ : Point3d) := rfl
  have hget4 : Polyline.Get [⟨0, 0, 0⟩, ⟨2, 0, 0⟩, ⟨2, 2, 0⟩, ⟨2 + 1e-7, 2, 0⟩,
      ⟨0, 0, 0⟩] 4 = (⟨0, 0, 0⟩ : Point3d) := rfl
  have hplanar : Polyline.IsPlanar
      [⟨0, 0, 0⟩, ⟨2, 0, 0⟩, ⟨2, 2, 0⟩, ⟨2 + 1e-7, 2, 0⟩, ⟨0, 0, 0⟩] EPSILON := by
    constructor
    · norm_num [Polyline.Count]
    · intro i h3 h5
      rw [hget0, hget1, hget2, createFrom3Points_xy]
      have h5' : i < 5 := by simpa [Polyline.Count] using h5
      interval_cases i
      · rw [hget3]
        exact xy_frame_coplanar _ _ _ (by norm_num [EPSILON])
      · rw [hget4]
        exact xy_frame_coplanar _ _ _ (by norm_num [EPSILON])
  have hncop : ¬ (Plane.CreateFrom3Points ⟨0, 0, 0⟩ ⟨2, 0, 0⟩ ⟨2, 2, 0⟩).IsPointCoplanarTol
      ⟨5, 5, 5⟩ EPSILON := by
    rw [createFrom3Points_xy]
    exact xy_frame_not_coplanar_555
  refine ⟨hclosed, hplanar, hncop, ?_⟩
  have hv0 : Line.IsValid ⟨⟨0, 0, 0⟩, ⟨2, 0, 0⟩⟩ := by
    norm_num [Line.IsValid, Point3d.Equals, Open3dMath.EpsilonEquals, EPSILON]
  have hv1 : Line.IsValid ⟨⟨2, 0, 0⟩, ⟨2, 2, 0⟩⟩ := by
    norm_num [Line.IsValid, Point3d.Equals, Open3dMath.EpsilonEquals, EPSILON]
  have hnv2 : ¬ Line.IsValid ⟨⟨2, 2, 0⟩, ⟨2 + 1e-7, 2, 0⟩⟩ := by
    norm_num [Line.IsValid, Point3d.Equals, Open3dMath.EpsilonEquals, EPSILON, abs_lt]
  have h59 : ¬ (Real.sqrt 59 ≤ EPSILON) := sqrt_not_le_epsilon 59 (by norm_num)
  have h43 : ¬ (Real.sqrt 43 ≤ EPSILON) := sqrt_not_le_epsilon 43 (by norm_num)
  have hseg0 : Line.IsPointOnE ⟨⟨0, 0, 0⟩, ⟨2, 0, 0⟩⟩ ⟨5, 5, 5⟩ true EPSILON = .ok false := by
    rw [Line.isPointOnE_eval _ _ _ _ hv0]
    norm_num [Line.LinePointClosestParameter, hv0, Point3d.SubtractPoint,
      Vector3d.DotProduct, Open3dMath.Clamp, max_def, min_def, Line.PointAtP,
      Line.DirectionV, Vector3d.Multiply, Vector3d.AddToPoint, Point3d.DistanceTo,
      Point3d.Distance, h59]
  have hseg1 : Line.IsPointOnE ⟨⟨2, 0, 0⟩, ⟨2, 2, 0⟩⟩ ⟨5, 5, 5⟩ true EPSILON = .ok false := by
    rw [Line.isPointOnE_eval _ _ _ _ hv1]
    norm_num [Line.LinePointClosestParameter, hv1, Point3d.SubtractPoint,
      Vector3d.DotProduct, Open3dMath.Clamp, max_def, min_def, Line.PointAtP,
      Line.DirectionV, Vector3d.Multiply, Vector3d.AddToPoint, Point3d.DistanceTo,
      Point3d.Distance, h43]
  have hseg2 : Line.IsPointOnE ⟨⟨2, 2, 0⟩, ⟨2 + 1e-7, 2, 0⟩⟩ ⟨5, 5, 5⟩ true EPSILON =
      .error "Cannot evaluate an invalid line." := Line.isPointOnE_invalid _ _ _ _ hnv2
  have hscan : Polyline.IsPointOnE
      [⟨0, 0, 0⟩, ⟨2, 0, 0⟩, ⟨2, 2, 0⟩, ⟨2 + 1e-7, 2, 0⟩, ⟨0, 0, 0⟩] ⟨5, 5, 5⟩ EPSILON =
      .error "Cannot evaluate an invalid line." := by
    rw [Polyline.IsPointOnE]
    rw [if_neg (by norm_num [Polyline.Count])]
    have hpairs : Polyline.segmentPairs
        [⟨0, 0, 0⟩, ⟨2, 0, 0⟩, ⟨2, 2, 0⟩, ⟨2 + 1e-7, 2, 0⟩, ⟨0, 0, 0⟩] =
        [(⟨0, 0, 0⟩, ⟨2, 0, 0⟩), (⟨2, 0, 0⟩, ⟨2, 2, 0⟩), (⟨2, 2, 0⟩, ⟨2 + 1e-7, 2, 0⟩),
         (⟨2 + 1e-7, 2, 0⟩, ⟨0, 0, 0⟩)] := rfl
    rw [hpairs]
    rw [Polyline.isPointOnScan, hseg0]
    rw [Polyline.isPointOnScan, hseg1]
    rw [Polyline.isPointOnScan, hseg2]
  rw [Polyline.IsPointInside]
  rw [if_neg (by simpa using hclosed)]
  rw [if_neg (by simpa using hplanar)]
  rw [hscan]

/-- C6 witness: on the closed planar square
    `(0,0,0), (2,0,0), (2,2,0), (0,2,0), (0,0,0)` (all segments valid) with the
    off-plane point `(5,5,5)`, `IsPointInside` returns `false`, by the
    non-coplanar branch of `c6_ispointinside_policy`. -/
theorem c6_ispointinside_policy_witness :
    Polyline.IsPointInside [⟨0, 0, 0⟩, ⟨2, 0, 0⟩, ⟨2, 2, 0⟩, ⟨0, 2, 0⟩, ⟨0, 0, 0⟩]
      ⟨5, 5, 5⟩ EPSILON = .ok false := by
  have hclosed : Polyline.IsClosed
      [⟨0, 0, 0⟩, ⟨2, 0, 0⟩, ⟨2, 2, 0⟩, ⟨0, 2, 0⟩, ⟨0, 0, 0⟩] := by
    constructor
    · norm_num [Polyline.Count]
    · norm_num [Polyline.Get, Polyline.Count, List.getD, Point3d.Equals,
        Open3dMath.EpsilonEquals, EPSILON]
  have hget0 : Polyline.Get [⟨0, 0, 0⟩, ⟨2, 0, 0⟩, ⟨2, 2, 0⟩, ⟨0, 2, 0⟩,
      ⟨0, 0, 0⟩] 0 = (⟨0, 0, 0⟩ : Point3d) := rfl
  have hget1 : Polyline.Get [⟨0, 0, 0⟩, ⟨2, 0, 0⟩, ⟨2, 2, 0⟩, ⟨0, 2, 0⟩,
      ⟨0, 0, 0⟩] 1 = (⟨2, 0, 0⟩ : Point3d) := rfl
  have hget2 : Polyline.Get [⟨0, 0, 0⟩, ⟨2, 0, 0⟩, ⟨2, 2, 0⟩, ⟨0, 2, 0⟩,
      ⟨0, 0, 0⟩] 2 = (⟨2, 2, 0⟩ : Point3d) := rfl
  have hget3 : Polyline.Get [⟨0, 0, 0⟩, ⟨2, 0, 0⟩, ⟨2, 2, 0⟩, ⟨0, 2, 0⟩,
      ⟨0, 0, 0⟩] 3 = (⟨0, 2, 0⟩ : Point3d) := rfl
  have hget4 : Polyline.Get [⟨0, 0, 0⟩, ⟨2, 0, 0⟩, ⟨2, 2, 0⟩, ⟨0, 2, 0⟩,
      ⟨0, 0, 0⟩] 4 = (⟨0, 0, 0⟩ : Point3d) := rfl
  have hplanar : Polyline.IsPlanar
      [⟨0, 0, 0⟩, ⟨2, 0, 0⟩, ⟨2, 2, 0⟩, ⟨0, 2, 0⟩, ⟨0, 0, 0⟩] EPSILON := by
    constructor
    · norm_num [Polyline.Count]
    · intro i h3 h5
      rw [hget0, hget1, hget2, createFrom3Points_xy]
      have h5' : i < 5 := by simpa [Polyline.Count] using h5
      interval_cases i
      · rw [hget3]
        exact xy_frame_coplanar _ _ _ (by norm_num [EPSILON])
      · rw [hget4]
        exact xy_frame_coplanar _ _ _ (by norm_num [EPSILON])
  have hv0 : Line.IsValid ⟨⟨0, 0, 0⟩, ⟨2, 0, 0⟩⟩ := by
    norm_num [Line.IsValid, Point3d.Equals, Open3dMath.EpsilonEquals, EPSILON]
  have hv1 : Line.IsValid ⟨⟨2, 0, 0⟩, ⟨2, 2, 0⟩⟩ := by
    norm_num [Line.IsValid, Point3d.Equals, Open3dMath.EpsilonEquals, EPSILON]
  have hv2 : Line.IsValid ⟨⟨2, 2, 0⟩, ⟨0, 2, 0⟩⟩ := by
    norm_num [Line.IsValid, Point3d.Equals, Open3dMath.EpsilonEquals, EPSILON]
  have hv3 : Line.IsValid ⟨⟨0, 2, 0⟩, ⟨0, 0, 0⟩⟩ := by
    norm_num [Line.IsValid, Point3d.Equals, Open3dMath.EpsilonEquals, EPSILON]
  have h59 : ¬ (Real.sqrt 59 ≤ EPSILON) := sqrt_not_le_epsilon 59 (by norm_num)
  have h43 : ¬ (Real.sqrt 43 ≤ EPSILON) := sqrt_not_le_epsilon 43 (by norm_num)
  have hseg0 : Line.IsPointOnE ⟨⟨0, 0, 0⟩, ⟨2, 0, 0⟩⟩ ⟨5, 5, 5⟩ true EPSILON = .ok false := by
    rw [Line.isPointOnE_eval _ _ _ _ hv0]
    norm_num [Line.LinePointClosestParameter, hv0, Point3d.SubtractPoint,
      Vector3d.DotProduct, Open3dMath.Clamp, max_def, min_def, Line.PointAtP,
      Line.DirectionV, Vector3d.Multiply, Vector3d.AddToPoint, Point3d.DistanceTo,
      Point3d.Distance, h59]
  have hseg1 : Line.IsPointOnE ⟨⟨2, 0, 0⟩, ⟨2, 2, 0⟩⟩ ⟨5, 5, 5⟩ true EPSILON = .ok false := by
    rw [Line.isPointOnE_eval _ _ _ _ hv1]
    norm_num [Line.LinePointClosestParameter, hv1, Point3d.SubtractPoint,
      Vector3d.DotProduct, Open3dMath.Clamp, max_def, min_def, Line.PointAtP,
      Line.DirectionV, Vector3d.Multiply, Vector3d.AddToPoint, Point3d.DistanceTo,
      Point3d.Distance, h43]
  have hseg2 : Line.IsPointOnE ⟨⟨2, 2, 0⟩, ⟨0, 2, 0⟩⟩ ⟨5, 5, 5⟩ true EPSILON = .ok false := by
    rw [Line.isPointOnE_eval _ _ _ _ hv2]
    norm_num [Line.LinePointClosestParameter, hv2, Point3d.SubtractPoint,
      Vector3d.DotProduct, Open3dMath.Clamp, max_def, min_def, Line.PointAtP,
      Line.DirectionV, Vector3d.Multiply, Vector3d.AddToPoint, Point3d.DistanceTo,
      Point3d.Distance, h43]
  have hseg3 : Line.IsPointOnE ⟨⟨0, 2, 0⟩, ⟨0, 0, 0⟩⟩ ⟨5, 5, 5⟩ true EPSILON = .ok false := by
    rw [Line.isPointOnE_eval _ _ _ _ hv3]
    norm_num [Line.LinePointClosestParameter, hv3, Point3d.SubtractPoint,
      Vector3d.DotProduct, Open3dMath.Clamp, max_def, min_def, Line.PointAtP,
      Line.DirectionV, Vector3d.Multiply, Vector3d.AddToPoint, Point3d.DistanceTo,
      Point3d.Distance, h59]
  have hscan : Polyline.IsPointOnE
      [⟨0, 0, 0⟩, ⟨2, 0, 0⟩, ⟨2, 2, 0⟩, ⟨0, 2, 0⟩, ⟨0, 0, 0⟩] ⟨5, 5, 5⟩ EPSILON =
      .ok false := by
    rw [Polyline.IsPointOnE]
    rw [if_neg (by norm_num [Polyline.Count])]
    have hpairs : Polyline.segmentPairs
        [⟨0, 0, 0⟩, ⟨2, 0, 0⟩, ⟨2, 2, 0⟩, ⟨0, 2, 0⟩, ⟨0, 0, 0⟩] =
        [(⟨0, 0, 0⟩, ⟨2, 0, 0⟩), (⟨2, 0, 0⟩, ⟨2, 2, 0⟩), (⟨2, 2, 0⟩, ⟨0, 2, 0⟩),
         (⟨0, 2, 0⟩, ⟨0, 0, 0⟩)] := rfl
    rw [hpairs]
    rw [Polyline.isPointOnScan, hseg0]
    rw [Polyline.isPointOnScan, hseg1]
    rw [Polyline.isPointOnScan, hseg2]
    rw [Polyline.isPointOnScan, hseg3]
    rw [Polyline.isPointOnScan]
  have hncop : ¬ Plane.IsPointCoplanarTol (Plane.CreateFrom3Points
      (Polyline.Get [⟨0, 0, 0⟩, ⟨2, 0, 0⟩, ⟨2, 2, 0⟩, ⟨0, 2, 0⟩, ⟨0, 0, 0⟩] 0)
      (Polyline.Get [⟨0, 0, 0⟩, ⟨2, 0, 0⟩, ⟨2, 2, 0⟩, ⟨0, 2, 0⟩, ⟨0, 0, 0⟩] 1)
      (Polyline.Get [⟨0, 0, 0⟩, ⟨2, 0, 0⟩, ⟨2, 2, 0⟩, ⟨0, 2, 0⟩, ⟨0, 0, 0⟩] 2))
      ⟨5, 5, 5⟩ EPSILON := by
    rw [hget0, hget1, hget2, createFrom3Points_xy]
    exact xy_frame_not_coplanar_555
  exact (c6_ispointinside_policy
    [⟨0, 0, 0⟩, ⟨2, 0, 0⟩, ⟨2, 2, 0⟩, ⟨0, 2, 0⟩, ⟨0, 0, 0⟩] ⟨5, 5, 5⟩
    EPSILON).2.2.2.1 hclosed hplanar hscan hncop

end Open3d
